import Mathlib

/-!
Verification of the sanitizer runtime's shadow allocator core
(MotorolaMobilityLLC/external-compiler-rt).

Shallow embedding of:
* `SplineSizeClassMap` / `DefaultSizeClassMap`
  (lib/sanitizer_common/sanitizer_allocator.h)
* `SizeClassAllocator64` region state, `PopulateFreeList`, `BulkAllocate`,
  `BulkDeallocate` and the thread-local `SizeClassAllocatorLocalCache`
* `LargeMmapAllocator` and `CombinedAllocator`
* the error classifier and one-shot report guard of `__asan_report_error`
  (lib/asan/asan_rtl.cc)
* the redzone flag checks of `__asan_init`
* `FakeStack::Allocate` / `GC` / `HandleNoReturn` (lib/asan/asan_fake_stack.cc)

Machine integers (`uptr`, 64-bit) are modelled as `Nat` with explicit
wrap-around (`% 2^64`) at the points where the C code can overflow.
-/

namespace CompilerRT

/-- The modulus of the 64-bit `uptr` type. -/
def U64 : Nat := 2 ^ 64

/-- Value of an `Int`-valued expression computed in 64-bit unsigned
arithmetic.  Because `Int.emod` by a positive modulus lands in
`[0, U64)`, this is exactly the C value of the expression, whatever the
association order of the `+`/`-` operations was. -/
def wrap64 (x : Int) : Nat := (x % (U64 : Int)).toNat

/-- 64-bit addition as the C `+` on `uptr`. -/
def add64 (a b : Nat) : Nat := (a + b) % U64

/-- `RoundUpTo(size, boundary)` (sanitizer_common.h) for a power-of-two
`boundary`: `(size + boundary - 1) & ~(boundary - 1)` on `uptr`. -/
def roundUpTo64 (size boundary : Nat) : Nat :=
  ((size + boundary - 1) % U64) / boundary * boundary

theorem wrap64_ofNat (n : Nat) (h : n < U64) : wrap64 n = n := by
  unfold wrap64
  rw [Int.emod_eq_of_lt (by exact_mod_cast Nat.zero_le n)
      (by exact_mod_cast h)]
  exact Int.toNat_ofNat n

theorem wrap64_eq_toNat (x : Int) (h0 : 0 ≤ x) (h1 : x < (U64 : Int)) :
    wrap64 x = x.toNat := by
  unfold wrap64
  rw [Int.emod_eq_of_lt h0 h1]

/-! ## Size-class maps

`SplineSizeClassMap` (sanitizer_allocator.h:26-78): a piecewise-linear
map between size-class ids and byte sizes, given by anchor points
`l0..l5`, steps `s0..s4` and cache caps `c0..c4`. -/

structure SplineParams where
  l0 : Nat
  l1 : Nat
  l2 : Nat
  l3 : Nat
  l4 : Nat
  l5 : Nat
  s0 : Nat
  s1 : Nat
  s2 : Nat
  s3 : Nat
  s4 : Nat
  c0 : Nat
  c1 : Nat
  c2 : Nat
  c3 : Nat
  c4 : Nat

namespace SplineParams

def u0 (P : SplineParams) : Nat := 0 + (P.l1 - P.l0) / P.s0
def u1 (P : SplineParams) : Nat := P.u0 + (P.l2 - P.l1) / P.s1
def u2 (P : SplineParams) : Nat := P.u1 + (P.l3 - P.l2) / P.s2
def u3 (P : SplineParams) : Nat := P.u2 + (P.l4 - P.l3) / P.s3
def u4 (P : SplineParams) : Nat := P.u3 + (P.l5 - P.l4) / P.s4

def kNumClasses (P : SplineParams) : Nat := P.u4 + 1
def kMaxSize (P : SplineParams) : Nat := P.l5
def kMinSize (P : SplineParams) : Nat := P.l0

/-- `SplineSizeClassMap::Size` (sanitizer_allocator.h:53-60).  The C
arithmetic is on `uptr`, hence the `wrap64`. -/
def SizeOf (P : SplineParams) (class_id : Nat) : Nat :=
  if class_id ≤ P.u0 then wrap64 (P.l0 + P.s0 * ((class_id : Int) - 0))
  else if class_id ≤ P.u1 then wrap64 (P.l1 + P.s1 * ((class_id : Int) - P.u0))
  else if class_id ≤ P.u2 then wrap64 (P.l2 + P.s2 * ((class_id : Int) - P.u1))
  else if class_id ≤ P.u3 then wrap64 (P.l3 + P.s3 * ((class_id : Int) - P.u2))
  else if class_id ≤ P.u4 then wrap64 (P.l4 + P.s4 * ((class_id : Int) - P.u3))
  else 0

/-- `SplineSizeClassMap::ClassID` (sanitizer_allocator.h:61-68).  The
numerator is a `uptr` value (wrapped), then divided and added on `uptr`. -/
def ClassIDOf (P : SplineParams) (size : Nat) : Nat :=
  if size ≤ P.l1 then (0 + wrap64 ((size : Int) - P.l0 + P.s0 - 1) / P.s0) % U64
  else if size ≤ P.l2 then (P.u0 + wrap64 ((size : Int) - P.l1 + P.s1 - 1) / P.s1) % U64
  else if size ≤ P.l3 then (P.u1 + wrap64 ((size : Int) - P.l2 + P.s2 - 1) / P.s2) % U64
  else if size ≤ P.l4 then (P.u2 + wrap64 ((size : Int) - P.l3 + P.s3 - 1) / P.s3) % U64
  else if size ≤ P.l5 then (P.u3 + wrap64 ((size : Int) - P.l4 + P.s4 - 1) / P.s4) % U64
  else 0

/-- `SplineSizeClassMap::MaxCached` (sanitizer_allocator.h:70-77). -/
def MaxCached (P : SplineParams) (class_id : Nat) : Nat :=
  if class_id ≤ P.u0 then P.c0
  else if class_id ≤ P.u1 then P.c1
  else if class_id ≤ P.u2 then P.c2
  else if class_id ≤ P.u3 then P.c3
  else if class_id ≤ P.u4 then P.c4
  else 0

end SplineParams

/-- `DefaultSizeClassMap` (sanitizer_allocator.h:80-86): the spline with
`l = 2^4..2^21`, `s = 2^4..2^15`, caps `256,64,16,4,1`. -/
def DefaultSizeClassMap : SplineParams :=
  { l0 := 2 ^ 4, l1 := 2 ^ 9, l2 := 2 ^ 12, l3 := 2 ^ 15, l4 := 2 ^ 18,
    l5 := 2 ^ 21,
    s0 := 2 ^ 4, s1 := 2 ^ 6, s2 := 2 ^ 9, s3 := 2 ^ 12, s4 := 2 ^ 15,
    c0 := 256, c1 := 64, c2 := 16, c3 := 4, c4 := 1 }

/-- Arithmetic of one linear spline segment: for `1 ≤ a ≤ step * n` the
ceiling quotient `k = (a + step - 1) / step` satisfies `1 ≤ k ≤ n`,
overshoots `a`, and is a fixed point of the same rounding. -/
theorem ceil_step (step n a : Nat) (hstep : 0 < step) (ha : 1 ≤ a)
    (han : a ≤ step * n) :
    1 ≤ (a + step - 1) / step ∧ (a + step - 1) / step ≤ n ∧
      a ≤ step * ((a + step - 1) / step) ∧
      (step * ((a + step - 1) / step) + step - 1) / step
        = (a + step - 1) / step := by
  have hdm := Nat.div_add_mod (a + step - 1) step
  have hmod : (a + step - 1) % step < step := Nat.mod_lt _ hstep
  have h1 : 1 ≤ (a + step - 1) / step := by
    rw [Nat.le_div_iff_mul_le hstep]
    omega
  have h3 : a ≤ step * ((a + step - 1) / step) := by omega
  have hrhs : (step * n + (step - 1)) / step = n := by
    rw [Nat.mul_add_div hstep, Nat.div_eq_of_lt (show step - 1 < step by omega)]
    omega
  have h2 : (a + step - 1) / step ≤ n := by
    have hle : a + step - 1 ≤ step * n + (step - 1) := by omega
    have hdiv := Nat.div_le_div_right (c := step) hle
    rwa [hrhs] at hdiv
  refine ⟨h1, h2, h3, ?_⟩
  have he : step * ((a + step - 1) / step) + step - 1
      = step * ((a + step - 1) / step) + (step - 1) := by omega
  rw [he, Nat.mul_add_div hstep,
    Nat.div_eq_of_lt (show step - 1 < step by omega)]
  omega

theorem default_u0 : DefaultSizeClassMap.u0 = 31 := by decide
theorem default_u1 : DefaultSizeClassMap.u1 = 87 := by decide
theorem default_u2 : DefaultSizeClassMap.u2 = 143 := by decide
theorem default_u3 : DefaultSizeClassMap.u3 = 199 := by decide
theorem default_u4 : DefaultSizeClassMap.u4 = 255 := by decide
theorem default_numClasses : DefaultSizeClassMap.kNumClasses = 256 := by decide

/-- Reduced form of `ClassID` on the second spline segment of the default
map (sizes in `(2^9, 2^12]`, step `2^6`). -/
theorem default_classID_seg2 (s : Nat) (h1 : 512 < s) (h2 : s ≤ 4096) :
    SplineParams.ClassIDOf DefaultSizeClassMap s = 31 + (s - 512 + 63) / 64 := by
  have e1 : ¬ s ≤ DefaultSizeClassMap.l1 := by
    show ¬ s ≤ 2 ^ 9
    omega
  have e2 : s ≤ DefaultSizeClassMap.l2 := by
    show s ≤ 2 ^ 12
    omega
  rw [SplineParams.ClassIDOf, if_neg e1, if_pos e2]
  have harg : (s : Int) - DefaultSizeClassMap.l1 + DefaultSizeClassMap.s1 - 1
      = ((s - 512 + 63 : Nat) : Int) := by
    show (s : Int) - (2 ^ 9 : Nat) + (2 ^ 6 : Nat) - 1 = ((s - 512 + 63 : Nat) : Int)
    push_cast
    omega
  rw [harg, wrap64_ofNat _ (by unfold U64; omega)]
  have hq : (s - 512 + 63) / DefaultSizeClassMap.s1 ≤ s - 512 + 63 :=
    Nat.div_le_self _ _
  have hmod : DefaultSizeClassMap.u0 + (s - 512 + 63) / DefaultSizeClassMap.s1 < U64 := by
    unfold U64
    have : DefaultSizeClassMap.u0 = 31 := default_u0
    omega
  rw [Nat.mod_eq_of_lt hmod, default_u0]
  show 31 + (s - 512 + 63) / (2 ^ 6 : Nat) = 31 + (s - 512 + 63) / 64
  norm_num


/-- Reduced form of `ClassID` on the first spline segment of the default
map (sizes in `[1, 2^9]`, step `2^4`). -/
theorem default_classID_seg1 (s : Nat) (h1 : 1 ≤ s) (h2 : s ≤ 512) :
    SplineParams.ClassIDOf DefaultSizeClassMap s = (s - 1) / 16 := by
  have e1 : s ≤ DefaultSizeClassMap.l1 := by
    show s ≤ 2 ^ 9
    omega
  rw [SplineParams.ClassIDOf, if_pos e1]
  have harg : (s : Int) - DefaultSizeClassMap.l0 + DefaultSizeClassMap.s0 - 1
      = ((s - 1 : Nat) : Int) := by
    show (s : Int) - (2 ^ 4 : Nat) + (2 ^ 4 : Nat) - 1 = ((s - 1 : Nat) : Int)
    push_cast
    omega
  rw [harg, wrap64_ofNat _ (by unfold U64; omega)]
  have hq : (s - 1) / DefaultSizeClassMap.s0 ≤ s - 1 := Nat.div_le_self _ _
  rw [Nat.mod_eq_of_lt (by unfold U64; omega)]
  show 0 + (s - 1) / (2 ^ 4 : Nat) = (s - 1) / 16
  norm_num

/-- Reduced form of `ClassID` on spline segment 3 of the default map
(sizes in `(4096, 32768]`, step `512`). -/
theorem default_classID_seg3 (s : Nat) (h1 : 4096 < s) (h2 : s ≤ 32768) :
    SplineParams.ClassIDOf DefaultSizeClassMap s = 87 + (s - 4096 + 511) / 512 := by
  have e1 : ¬ s ≤ DefaultSizeClassMap.l1 := by
    show ¬ s ≤ 2 ^ 9
    omega
  have e2 : ¬ s ≤ DefaultSizeClassMap.l2 := by
    show ¬ s ≤ 2 ^ 12
    omega
  have e3 : s ≤ DefaultSizeClassMap.l3 := by
    show s ≤ 2 ^ 15
    omega
  rw [SplineParams.ClassIDOf, if_neg e1, if_neg e2, if_pos e3]
  have harg : (s : Int) - DefaultSizeClassMap.l2 + DefaultSizeClassMap.s2 - 1
      = ((s - 4096 + 511 : Nat) : Int) := by
    show (s : Int) - (2 ^ 12 : Nat) + (2 ^ 9 : Nat) - 1 = ((s - 4096 + 511 : Nat) : Int)
    push_cast
    omega
  rw [harg, wrap64_ofNat _ (by unfold U64; omega)]
  have hq : (s - 4096 + 511) / DefaultSizeClassMap.s2 ≤ s - 4096 + 511 :=
    Nat.div_le_self _ _
  have hmod : DefaultSizeClassMap.u1 + (s - 4096 + 511) / DefaultSizeClassMap.s2 < U64 := by
    unfold U64
    have : DefaultSizeClassMap.u1 = 87 := default_u1
    omega
  rw [Nat.mod_eq_of_lt hmod, default_u1]
  show 87 + (s - 4096 + 511) / (2 ^ 9 : Nat) = 87 + (s - 4096 + 511) / 512
  norm_num

/-- Reduced form of `ClassID` on spline segment 4 of the default map
(sizes in `(32768, 262144]`, step `4096`). -/
theorem default_classID_seg4 (s : Nat) (h1 : 32768 < s) (h2 : s ≤ 262144) :
    SplineParams.ClassIDOf DefaultSizeClassMap s = 143 + (s - 32768 + 4095) / 4096 := by
  have e1 : ¬ s ≤ DefaultSizeClassMap.l1 := by
    show ¬ s ≤ 2 ^ 9
    omega
  have e2 : ¬ s ≤ DefaultSizeClassMap.l2 := by
    show ¬ s ≤ 2 ^ 12
    omega
  have e3 : ¬ s ≤ DefaultSizeClassMap.l3 := by
    show ¬ s ≤ 2 ^ 15
    omega
  have e4 : s ≤ DefaultSizeClassMap.l4 := by
    show s ≤ 2 ^ 18
    omega
  rw [SplineParams.ClassIDOf, if_neg e1, if_neg e2, if_neg e3, if_pos e4]
  have harg : (s : Int) - DefaultSizeClassMap.l3 + DefaultSizeClassMap.s3 - 1
      = ((s - 32768 + 4095 : Nat) : Int) := by
    show (s : Int) - (2 ^ 15 : Nat) + (2 ^ 12 : Nat) - 1 = ((s - 32768 + 4095 : Nat) : Int)
    push_cast
    omega
  rw [harg, wrap64_ofNat _ (by unfold U64; omega)]
  have hq : (s - 32768 + 4095) / DefaultSizeClassMap.s3 ≤ s - 32768 + 4095 :=
    Nat.div_le_self _ _
  have hmod : DefaultSizeClassMap.u2 + (s - 32768 + 4095) / DefaultSizeClassMap.s3 < U64 := by
    unfold U64
    have : DefaultSizeClassMap.u2 = 143 := default_u2
    omega
  rw [Nat.mod_eq_of_lt hmod, default_u2]
  show 143 + (s - 32768 + 4095) / (2 ^ 12 : Nat) = 143 + (s - 32768 + 4095) / 4096
  norm_num

/-- Reduced form of `ClassID` on spline segment 5 of the default map
(sizes in `(262144, 2097152]`, step `32768`). -/
theorem default_classID_seg5 (s : Nat) (h1 : 262144 < s) (h2 : s ≤ 2097152) :
    SplineParams.ClassIDOf DefaultSizeClassMap s = 199 + (s - 262144 + 32767) / 32768 := by
  have e1 : ¬ s ≤ DefaultSizeClassMap.l1 := by
    show ¬ s ≤ 2 ^ 9
    omega
  have e2 : ¬ s ≤ DefaultSizeClassMap.l2 := by
    show ¬ s ≤ 2 ^ 12
    omega
  have e3 : ¬ s ≤ DefaultSizeClassMap.l3 := by
    show ¬ s ≤ 2 ^ 15
    omega
  have e4 : ¬ s ≤ DefaultSizeClassMap.l4 := by
    show ¬ s ≤ 2 ^ 18
    omega
  have e5 : s ≤ DefaultSizeClassMap.l5 := by
    show s ≤ 2 ^ 21
    omega
  rw [SplineParams.ClassIDOf, if_neg e1, if_neg e2, if_neg e3, if_neg e4, if_pos e5]
  have harg : (s : Int) - DefaultSizeClassMap.l4 + DefaultSizeClassMap.s4 - 1
      = ((s - 262144 + 32767 : Nat) : Int) := by
    show (s : Int) - (2 ^ 18 : Nat) + (2 ^ 15 : Nat) - 1 = ((s - 262144 + 32767 : Nat) : Int)
    push_cast
    omega
  rw [harg, wrap64_ofNat _ (by unfold U64; omega)]
  have hq : (s - 262144 + 32767) / DefaultSizeClassMap.s4 ≤ s - 262144 + 32767 :=
    Nat.div_le_self _ _
  have hmod : DefaultSizeClassMap.u3 + (s - 262144 + 32767) / DefaultSizeClassMap.s4 < U64 := by
    unfold U64
    have : DefaultSizeClassMap.u3 = 199 := default_u3
    omega
  rw [Nat.mod_eq_of_lt hmod, default_u3]
  show 199 + (s - 262144 + 32767) / (2 ^ 15 : Nat) = 199 + (s - 262144 + 32767) / 32768
  norm_num

/-- Reduced form of `Size` on the first block of ids of the default map
(`c ≤ 31`). -/
theorem default_size_seg1 (c : Nat) (h2 : c ≤ 31) :
    SplineParams.SizeOf DefaultSizeClassMap c = 16 + 16 * c := by
  have e1 : c ≤ DefaultSizeClassMap.u0 := by
    rw [default_u0]
    omega
  rw [SplineParams.SizeOf, if_pos e1]
  have harg : (DefaultSizeClassMap.l0 : Int)
        + DefaultSizeClassMap.s0 * ((c : Int) - 0)
      = ((16 + 16 * c : Nat) : Int) := by
    show ((2 ^ 4 : Nat) : Int) + ((2 ^ 4 : Nat) : Int) * ((c : Int) - 0)
        = ((16 + 16 * c : Nat) : Int)
    push_cast
    ring
  rw [harg, wrap64_ofNat _ (by unfold U64; omega)]

/-- Reduced form of `Size` on block 2 of ids of the default map
(`31 < c ≤ 87`). -/
theorem default_size_seg2 (c : Nat) (h1 : 31 < c) (h2 : c ≤ 87) :
    SplineParams.SizeOf DefaultSizeClassMap c = 512 + 64 * (c - 31) := by
  have e1 : ¬ c ≤ DefaultSizeClassMap.u0 := by
    rw [default_u0]
    omega
  have e2 : c ≤ DefaultSizeClassMap.u1 := by
    rw [default_u1]
    omega
  rw [SplineParams.SizeOf, if_neg e1, if_pos e2, default_u0]
  have harg : (DefaultSizeClassMap.l1 : Int)
        + DefaultSizeClassMap.s1 * ((c : Int) - ((31 : Nat) : Int))
      = ((512 + 64 * (c - 31) : Nat) : Int) := by
    show ((2 ^ 9 : Nat) : Int) + ((2 ^ 6 : Nat) : Int) * ((c : Int) - ((31 : Nat) : Int))
        = ((512 + 64 * (c - 31) : Nat) : Int)
    push_cast [Nat.cast_sub (by omega : 31 ≤ c)]
    ring
  rw [harg, wrap64_ofNat _ (by unfold U64; omega)]

/-- Reduced form of `Size` on block 3 of ids of the default map
(`87 < c ≤ 143`). -/
theorem default_size_seg3 (c : Nat) (h1 : 87 < c) (h2 : c ≤ 143) :
    SplineParams.SizeOf DefaultSizeClassMap c = 4096 + 512 * (c - 87) := by
  have e1 : ¬ c ≤ DefaultSizeClassMap.u0 := by
    rw [default_u0]
    omega
  have e2 : ¬ c ≤ DefaultSizeClassMap.u1 := by
    rw [default_u1]
    omega
  have e3 : c ≤ DefaultSizeClassMap.u2 := by
    rw [default_u2]
    omega
  rw [SplineParams.SizeOf, if_neg e1, if_neg e2, if_pos e3, default_u1]
  have harg : (DefaultSizeClassMap.l2 : Int)
        + DefaultSizeClassMap.s2 * ((c : Int) - ((87 : Nat) : Int))
      = ((4096 + 512 * (c - 87) : Nat) : Int) := by
    show ((2 ^ 12 : Nat) : Int) + ((2 ^ 9 : Nat) : Int) * ((c : Int) - ((87 : Nat) : Int))
        = ((4096 + 512 * (c - 87) : Nat) : Int)
    push_cast [Nat.cast_sub (by omega : 87 ≤ c)]
    ring
  rw [harg, wrap64_ofNat _ (by unfold U64; omega)]

/-- Reduced form of `Size` on block 4 of ids of the default map
(`143 < c ≤ 199`). -/
theorem default_size_seg4 (c : Nat) (h1 : 143 < c) (h2 : c ≤ 199) :
    SplineParams.SizeOf DefaultSizeClassMap c = 32768 + 4096 * (c - 143) := by
  have e1 : ¬ c ≤ DefaultSizeClassMap.u0 := by
    rw [default_u0]
    omega
  have e2 : ¬ c ≤ DefaultSizeClassMap.u1 := by
    rw [default_u1]
    omega
  have e3 : ¬ c ≤ DefaultSizeClassMap.u2 := by
    rw [default_u2]
    omega
  have e4 : c ≤ DefaultSizeClassMap.u3 := by
    rw [default_u3]
    omega
  rw [SplineParams.SizeOf, if_neg e1, if_neg e2, if_neg e3, if_pos e4, default_u2]
  have harg : (DefaultSizeClassMap.l3 : Int)
        + DefaultSizeClassMap.s3 * ((c : Int) - ((143 : Nat) : Int))
      = ((32768 + 4096 * (c - 143) : Nat) : Int) := by
    show ((2 ^ 15 : Nat) : Int) + ((2 ^ 12 : Nat) : Int) * ((c : Int) - ((143 : Nat) : Int))
        = ((32768 + 4096 * (c - 143) : Nat) : Int)
    push_cast [Nat.cast_sub (by omega : 143 ≤ c)]
    ring
  rw [harg, wrap64_ofNat _ (by unfold U64; omega)]

/-- Reduced form of `Size` on block 5 of ids of the default map
(`199 < c ≤ 255`). -/
theorem default_size_seg5 (c : Nat) (h1 : 199 < c) (h2 : c ≤ 255) :
    SplineParams.SizeOf DefaultSizeClassMap c = 262144 + 32768 * (c - 199) := by
  have e1 : ¬ c ≤ DefaultSizeClassMap.u0 := by
    rw [default_u0]
    omega
  have e2 : ¬ c ≤ DefaultSizeClassMap.u1 := by
    rw [default_u1]
    omega
  have e3 : ¬ c ≤ DefaultSizeClassMap.u2 := by
    rw [default_u2]
    omega
  have e4 : ¬ c ≤ DefaultSizeClassMap.u3 := by
    rw [default_u3]
    omega
  have e5 : c ≤ DefaultSizeClassMap.u4 := by
    rw [default_u4]
    omega
  rw [SplineParams.SizeOf, if_neg e1, if_neg e2, if_neg e3, if_neg e4, if_pos e5, default_u3]
  have harg : (DefaultSizeClassMap.l4 : Int)
        + DefaultSizeClassMap.s4 * ((c : Int) - ((199 : Nat) : Int))
      = ((262144 + 32768 * (c - 199) : Nat) : Int) := by
    show ((2 ^ 18 : Nat) : Int) + ((2 ^ 15 : Nat) : Int) * ((c : Int) - ((199 : Nat) : Int))
        = ((262144 + 32768 * (c - 199) : Nat) : Int)
    push_cast [Nat.cast_sub (by omega : 199 ≤ c)]
    ring
  rw [harg, wrap64_ofNat _ (by unfold U64; omega)]

/-- Round trip of the default size-class map on its first segment. -/
theorem default_roundtrip_seg1 (s : Nat) (h1 : 1 ≤ s) (h2 : s ≤ 512) :
    s ≤ SplineParams.SizeOf DefaultSizeClassMap
        (SplineParams.ClassIDOf DefaultSizeClassMap s) ∧
      SplineParams.ClassIDOf DefaultSizeClassMap
          (SplineParams.SizeOf DefaultSizeClassMap
            (SplineParams.ClassIDOf DefaultSizeClassMap s))
        = SplineParams.ClassIDOf DefaultSizeClassMap s := by
  have hcid := default_classID_seg1 s h1 h2
  have hdm := Nat.div_add_mod (s - 1) 16
  have hmod : (s - 1) % 16 < 16 := Nat.mod_lt _ (by norm_num)
  have hb : (s - 1) / 16 ≤ 31 := by
    have hle : s - 1 ≤ 511 := by omega
    have hdiv := Nat.div_le_div_right (c := 16) hle
    norm_num at hdiv
    omega
  have hsz := default_size_seg1 ((s - 1) / 16) hb
  constructor
  · rw [hcid, hsz]
    omega
  · rw [hcid, hsz]
    rw [default_classID_seg1 _ (by omega) (by omega)]
    have hx : 16 + 16 * ((s - 1) / 16) - 1 = 16 * ((s - 1) / 16) + 15 := by omega
    rw [hx, Nat.mul_add_div (by norm_num),
      Nat.div_eq_of_lt (show (15 : Nat) < 16 by norm_num)]
    omega

/-- Round trip of the default size-class map on segment 2. -/
theorem default_roundtrip_seg2 (s : Nat) (h1 : 512 < s) (h2 : s ≤ 4096) :
    s ≤ SplineParams.SizeOf DefaultSizeClassMap
        (SplineParams.ClassIDOf DefaultSizeClassMap s) ∧
      SplineParams.ClassIDOf DefaultSizeClassMap
          (SplineParams.SizeOf DefaultSizeClassMap
            (SplineParams.ClassIDOf DefaultSizeClassMap s))
        = SplineParams.ClassIDOf DefaultSizeClassMap s := by
  obtain ⟨hk1, hk2, hk3, hk4⟩ :=
    ceil_step 64 56 (s - 512) (by norm_num) (by omega) (by omega)
  have hke : s - 512 + 64 - 1 = s - 512 + 63 := by omega
  rw [hke] at hk1 hk2 hk3 hk4
  have hcid := default_classID_seg2 s h1 h2
  have hsz := default_size_seg2 (31 + (s - 512 + 63) / 64)
    (by omega) (by omega)
  have hsub : 31 + (s - 512 + 63) / 64 - 31
      = (s - 512 + 63) / 64 := by omega
  rw [hsub] at hsz
  constructor
  · rw [hcid, hsz]
    omega
  · rw [hcid, hsz]
    rw [default_classID_seg2 _ (by omega) (by omega)]
    have hx : 512 + 64 * ((s - 512 + 63) / 64) - 512 + 63
        = 64 * ((s - 512 + 63) / 64) + 64 - 1 := by omega
    rw [hx, hk4]

/-- Round trip of the default size-class map on segment 3. -/
theorem default_roundtrip_seg3 (s : Nat) (h1 : 4096 < s) (h2 : s ≤ 32768) :
    s ≤ SplineParams.SizeOf DefaultSizeClassMap
        (SplineParams.ClassIDOf DefaultSizeClassMap s) ∧
      SplineParams.ClassIDOf DefaultSizeClassMap
          (SplineParams.SizeOf DefaultSizeClassMap
            (SplineParams.ClassIDOf DefaultSizeClassMap s))
        = SplineParams.ClassIDOf DefaultSizeClassMap s := by
  obtain ⟨hk1, hk2, hk3, hk4⟩ :=
    ceil_step 512 56 (s - 4096) (by norm_num) (by omega) (by omega)
  have hke : s - 4096 + 512 - 1 = s - 4096 + 511 := by omega
  rw [hke] at hk1 hk2 hk3 hk4
  have hcid := default_classID_seg3 s h1 h2
  have hsz := default_size_seg3 (87 + (s - 4096 + 511) / 512)
    (by omega) (by omega)
  have hsub : 87 + (s - 4096 + 511) / 512 - 87
      = (s - 4096 + 511) / 512 := by omega
  rw [hsub] at hsz
  constructor
  · rw [hcid, hsz]
    omega
  · rw [hcid, hsz]
    rw [default_classID_seg3 _ (by omega) (by omega)]
    have hx : 4096 + 512 * ((s - 4096 + 511) / 512) - 4096 + 511
        = 512 * ((s - 4096 + 511) / 512) + 512 - 1 := by omega
    rw [hx, hk4]

/-- Round trip of the default size-class map on segment 4. -/
theorem default_roundtrip_seg4 (s : Nat) (h1 : 32768 < s) (h2 : s ≤ 262144) :
    s ≤ SplineParams.SizeOf DefaultSizeClassMap
        (SplineParams.ClassIDOf DefaultSizeClassMap s) ∧
      SplineParams.ClassIDOf DefaultSizeClassMap
          (SplineParams.SizeOf DefaultSizeClassMap
            (SplineParams.ClassIDOf DefaultSizeClassMap s))
        = SplineParams.ClassIDOf DefaultSizeClassMap s := by
  obtain ⟨hk1, hk2, hk3, hk4⟩ :=
    ceil_step 4096 56 (s - 32768) (by norm_num) (by omega) (by omega)
  have hke : s - 32768 + 4096 - 1 = s - 32768 + 4095 := by omega
  rw [hke] at hk1 hk2 hk3 hk4
  have hcid := default_classID_seg4 s h1 h2
  have hsz := default_size_seg4 (143 + (s - 32768 + 4095) / 4096)
    (by omega) (by omega)
  have hsub : 143 + (s - 32768 + 4095) / 4096 - 143
      = (s - 32768 + 4095) / 4096 := by omega
  rw [hsub] at hsz
  constructor
  · rw [hcid, hsz]
    omega
  · rw [hcid, hsz]
    rw [default_classID_seg4 _ (by omega) (by omega)]
    have hx : 32768 + 4096 * ((s - 32768 + 4095) / 4096) - 32768 + 4095
        = 4096 * ((s - 32768 + 4095) / 4096) + 4096 - 1 := by omega
    rw [hx, hk4]

/-- Round trip of the default size-class map on segment 5. -/
theorem default_roundtrip_seg5 (s : Nat) (h1 : 262144 < s) (h2 : s ≤ 2097152) :
    s ≤ SplineParams.SizeOf DefaultSizeClassMap
        (SplineParams.ClassIDOf DefaultSizeClassMap s) ∧
      SplineParams.ClassIDOf DefaultSizeClassMap
          (SplineParams.SizeOf DefaultSizeClassMap
            (SplineParams.ClassIDOf DefaultSizeClassMap s))
        = SplineParams.ClassIDOf DefaultSizeClassMap s := by
  obtain ⟨hk1, hk2, hk3, hk4⟩ :=
    ceil_step 32768 56 (s - 262144) (by norm_num) (by omega) (by omega)
  have hke : s - 262144 + 32768 - 1 = s - 262144 + 32767 := by omega
  rw [hke] at hk1 hk2 hk3 hk4
  have hcid := default_classID_seg5 s h1 h2
  have hsz := default_size_seg5 (199 + (s - 262144 + 32767) / 32768)
    (by omega) (by omega)
  have hsub : 199 + (s - 262144 + 32767) / 32768 - 199
      = (s - 262144 + 32767) / 32768 := by omega
  rw [hsub] at hsz
  constructor
  · rw [hcid, hsz]
    omega
  · rw [hcid, hsz]
    rw [default_classID_seg5 _ (by omega) (by omega)]
    have hx : 262144 + 32768 * ((s - 262144 + 32767) / 32768) - 262144 + 32767
        = 32768 * ((s - 262144 + 32767) / 32768) + 32768 - 1 := by omega
    rw [hx, hk4]

theorem default_kMaxSize : DefaultSizeClassMap.kMaxSize = 2097152 := by decide

/-- C3: for every size `s` in `[1, kMaxSize]` of the default size-class
map, `Size (ClassID s) ≥ s` and `ClassID (Size (ClassID s)) = ClassID s`:
the id-to-size and size-to-id maps round-trip on class ids. -/
theorem sizeClassMap_roundTrip (s : Nat) (hs1 : 1 ≤ s)
    (hs2 : s ≤ DefaultSizeClassMap.kMaxSize) :
    s ≤ SplineParams.SizeOf DefaultSizeClassMap
        (SplineParams.ClassIDOf DefaultSizeClassMap s) ∧
      SplineParams.ClassIDOf DefaultSizeClassMap
          (SplineParams.SizeOf DefaultSizeClassMap
            (SplineParams.ClassIDOf DefaultSizeClassMap s))
        = SplineParams.ClassIDOf DefaultSizeClassMap s := by
  rw [default_kMaxSize] at hs2
  rcases le_or_lt s 512 with h | h
  · exact default_roundtrip_seg1 s hs1 h
  rcases le_or_lt s 4096 with h2 | h2
  · exact default_roundtrip_seg2 s h h2
  rcases le_or_lt s 32768 with h3 | h3
  · exact default_roundtrip_seg3 s h2 h3
  rcases le_or_lt s 262144 with h4 | h4
  · exact default_roundtrip_seg4 s h3 h4
  exact default_roundtrip_seg5 s h4 hs2

/-- Witness for C3 at the concrete size 300. -/
theorem sizeClassMap_roundTrip_witness :
    1 ≤ 300 ∧ 300 ≤ DefaultSizeClassMap.kMaxSize ∧
      (300 ≤ SplineParams.SizeOf DefaultSizeClassMap
          (SplineParams.ClassIDOf DefaultSizeClassMap 300) ∧
        SplineParams.ClassIDOf DefaultSizeClassMap
            (SplineParams.SizeOf DefaultSizeClassMap
              (SplineParams.ClassIDOf DefaultSizeClassMap 300))
          = SplineParams.ClassIDOf DefaultSizeClassMap 300) :=
  ⟨by decide, by decide, sizeClassMap_roundTrip 300 (by decide) (by decide)⟩


/-! ## Fatal errors

`CHECK` failure (`CheckFailed` → `ShowStatsAndAbort`) and the allocator's
out-of-memory path (`Die()`) both terminate the process; they are the
model's error outcomes. -/

inductive Fatal where
  | checkFailed : Fatal
  | outOfMemory : Fatal
deriving DecidableEq

/-! ## `__asan_init` redzone configuration (asan_rtl.cc:410-412)

```
FLAG_redzone = IntFlagValue(options, "redzone=", 128);
CHECK(FLAG_redzone >= 32);
CHECK((FLAG_redzone & (FLAG_redzone - 1)) == 0);
```
-/

/-- The redzone flag setup of `__asan_init`: default 128 when the option
is absent, then the two `CHECK`s in source order. -/
def initRedzone (opt : Option Nat) : Except Fatal Nat :=
  let v := match opt with
    | none => 128
    | some x => x
  if 32 ≤ v then
    if v &&& (v - 1) = 0 then .ok v else .error .checkFailed
  else .error .checkFailed

theorem and_self_pred_div_two (v : Nat) :
    v / 2 &&& (v - 1) / 2 = (v &&& (v - 1)) / 2 := (Nat.and_div_two).symm

/-- A positive number whose bit-test `v &&& (v-1)` vanishes is a power of
two. -/
theorem pow2_of_and_pred (v : Nat) (hv : 0 < v) (h : v &&& (v - 1) = 0) :
    ∃ k, v = 2 ^ k := by
  induction v using Nat.strong_induction_on with
  | _ v ih =>
    rcases Nat.even_or_odd v with he | ho
    · obtain ⟨m, hm⟩ := he
      have hm2 : v = 2 * m := by omega
      have hmpos : 0 < m := by omega
      have h2 : m &&& (m - 1) = 0 := by
        have hdiv : v / 2 &&& (v - 1) / 2 = 0 := by
          rw [and_self_pred_div_two v, h]
        have e1 : v / 2 = m := by omega
        have e2 : (v - 1) / 2 = m - 1 := by omega
        rwa [e1, e2] at hdiv
      obtain ⟨k, hk⟩ := ih m (by omega) hmpos h2
      exact ⟨k + 1, by rw [hm2, hk, pow_succ]; ring⟩
    · obtain ⟨m, hm⟩ := ho
      rcases Nat.eq_zero_or_pos m with hm0 | hmpos
      · exact ⟨0, by omega⟩
      · exfalso
        have hdiv : v / 2 &&& (v - 1) / 2 = 0 := by
          rw [and_self_pred_div_two v, h]
        have e1 : v / 2 = m := by omega
        have e2 : (v - 1) / 2 = m := by omega
        rw [e1, e2, Nat.and_self] at hdiv
        omega

/-- A power of two passes the bit test of `__asan_init`. -/
theorem and_pred_of_pow2 (k : Nat) : 2 ^ k &&& (2 ^ k - 1) = 0 := by
  rw [Nat.and_pow_two_sub_one_eq_mod, Nat.mod_self]

/-- C8: the configured redzone value is accepted iff it is a power of two
that is at least 32; any other configured value fails a startup `CHECK`
(fatal); the default when unconfigured is 128. -/
theorem initRedzone_spec :
    initRedzone none = .ok 128 ∧
      ∀ v : Nat,
        (initRedzone (some v) = .ok v ↔ 32 ≤ v ∧ ∃ k, v = 2 ^ k) ∧
          (¬ (32 ≤ v ∧ ∃ k, v = 2 ^ k) →
            initRedzone (some v) = .error .checkFailed) := by
  refine ⟨rfl, fun v => ⟨⟨fun hok => ?_, fun hcond => ?_⟩, fun hneg => ?_⟩⟩
  · by_cases h32 : 32 ≤ v
    · by_cases hand : v &&& (v - 1) = 0
      · exact ⟨h32, pow2_of_and_pred v (by omega) hand⟩
      · simp [initRedzone, h32, hand] at hok
    · simp [initRedzone, h32] at hok
  · obtain ⟨h32, k, hk⟩ := hcond
    have hand : v &&& (v - 1) = 0 := by rw [hk]; exact and_pred_of_pow2 k
    simp [initRedzone, h32, hand]
  · by_cases h32 : 32 ≤ v
    · have hand : ¬ v &&& (v - 1) = 0 := by
        intro hand
        exact hneg ⟨h32, pow2_of_and_pred v (by omega) hand⟩
      simp [initRedzone, h32, hand]
    · simp [initRedzone, h32]

/-- Witness for C8: redzone 64 is accepted, redzone 48 is a fatal
configuration error, and the default is 128. -/
theorem initRedzone_spec_witness :
    initRedzone none = .ok 128 ∧
      initRedzone (some 64) = .ok 64 ∧
      initRedzone (some 48) = .error .checkFailed := by
  refine ⟨initRedzone_spec.1, ((initRedzone_spec.2 64).1).mpr ⟨by decide, 6, by decide⟩,
    (initRedzone_spec.2 48).2 ?_⟩
  rintro ⟨-, k, hk⟩
  rcases le_or_lt k 5 with hkle | hklt
  · have : (2 : Nat) ^ k ≤ 2 ^ 5 := Nat.pow_le_pow_right (by norm_num) hkle
    omega
  · have : (2 : Nat) ^ 6 ≤ 2 ^ k := Nat.pow_le_pow_right (by norm_num) hklt
    omega

/-! ## The one-shot report guard of `__asan_report_error`
(asan_rtl.cc:298-303, 389)

```
static int num_calls = 0;
if (AtomicInc(&num_calls) > 1) return;
...
AsanDie();
```

`AtomicInc` (asan_posix.cc:111-117) is an atomic fetch-add that returns
the new value, so concurrent calls observe distinct counter values and
the calls are modelled as a sequence of counter increments. -/

/-- One call to `__asan_report_error`, reduced to its guard behavior:
takes the shared counter, returns the new counter and whether this call
printed a report and died (`AsanDie` at asan_rtl.cc:389). -/
def asanReportStep (num_calls : Nat) : Nat × Bool × Bool :=
  let n := num_calls + 1
  if n > 1 then (n, false, false) else (n, true, true)

/-- The (printed, died) outcomes of `k` successive calls to
`__asan_report_error`, starting from counter value `c`. -/
def asanReportTrace : Nat → Nat → List (Bool × Bool)
  | _, 0 => []
  | c, Nat.succ k =>
    let r := asanReportStep c
    (r.2.1, r.2.2) :: asanReportTrace r.1 k

theorem asanReportTrace_no_prints (c k : Nat) (hc : 0 < c) :
    (asanReportTrace c k).countP (fun e => e.1) = 0 := by
  induction k generalizing c with
  | zero => rfl
  | succ k ih =>
    have hstep : asanReportStep c = (c + 1, false, false) := by
      simp [asanReportStep, show c + 1 > 1 by omega]
    simp only [asanReportTrace, hstep, List.countP_cons]
    rw [ih (c + 1) (by omega)]
    decide

/-- C7: across every sequence of calls to `__asan_report_error`, at most
one call prints a report; a call that observes a prior increment of the
guard counter returns without printing; the one printing call dies. -/
theorem reportGuard_spec (k : Nat) :
    (asanReportTrace 0 k).countP (fun e => e.1) ≤ 1 ∧
      (∀ c : Nat, 0 < c → (asanReportStep c).2.1 = false) ∧
      (∀ c : Nat, (asanReportStep c).2.1 = true → (asanReportStep c).2.2 = true) := by
  refine ⟨?_, ?_, ?_⟩
  · match k with
    | 0 => decide
    | Nat.succ k =>
      have h0 : asanReportStep 0 = (1, true, true) := by decide
      simp only [asanReportTrace, h0, List.countP_cons]
      rw [asanReportTrace_no_prints 1 k (by omega)]
      decide
  · intro c hc
    simp [asanReportStep, show c + 1 > 1 by omega]
  · intro c hp
    by_cases h : c + 1 > 1
    · simp [asanReportStep, h] at hp
    · simp [asanReportStep, h]

/-- Witness for C7 on a run of three faulting calls. -/
theorem reportGuard_spec_witness :
    (asanReportTrace 0 3).countP (fun e => e.1) ≤ 1 ∧
      (∀ c : Nat, 0 < c → (asanReportStep c).2.1 = false) ∧
      (∀ c : Nat, (asanReportStep c).2.1 = true → (asanReportStep c).2.2 = true) :=
  reportGuard_spec 3


/-! ## The error classifier of `__asan_report_error` (asan_rtl.cc:304-340)

The shadow map helpers `MemToShadow`, `AddrIsInMem` and
`SHADOW_GRANULARITY` come from asan_mapping.h (a collaborator of this
core); the classifier below is parameterized by them, so the theorems
hold for every shadow layout. -/

def kAsanHeapLeftRedzoneMagic : Nat := 0xfa
def kAsanHeapRightRedzoneMagic : Nat := 0xfb
def kAsanHeapFreeMagic : Nat := 0xfd
def kAsanStackLeftRedzoneMagic : Nat := 0xf1
def kAsanStackMidRedzoneMagic : Nat := 0xf2
def kAsanStackRightRedzoneMagic : Nat := 0xf3
def kAsanStackPartialRedzoneMagic : Nat := 0xf4
def kAsanStackAfterReturnMagic : Nat := 0xf5
def kAsanUserPoisonedMemoryMagic : Nat := 0xf7
def kAsanGlobalRedzoneMagic : Nat := 0xf9
def kAsanInternalHeapMagic : Nat := 0xfe

/-- The `switch (*shadow_addr)` of `__asan_report_error`
(asan_rtl.cc:314-339): shadow magic value to bug description. -/
def magicDescr (b : Nat) : String :=
  if b = kAsanHeapLeftRedzoneMagic then "heap-buffer-overflow"
  else if b = kAsanHeapRightRedzoneMagic then "heap-buffer-overflow"
  else if b = kAsanHeapFreeMagic then "heap-use-after-free"
  else if b = kAsanStackLeftRedzoneMagic then "stack-buffer-underflow"
  else if b = kAsanStackMidRedzoneMagic then "stack-buffer-overflow"
  else if b = kAsanStackRightRedzoneMagic then "stack-buffer-overflow"
  else if b = kAsanStackPartialRedzoneMagic then "stack-buffer-overflow"
  else if b = kAsanStackAfterReturnMagic then "stack-use-after-return"
  else if b = kAsanUserPoisonedMemoryMagic then "use-after-poison"
  else if b = kAsanGlobalRedzoneMagic then "global-buffer-overflow"
  else "unknown-crash"

/-- The classifier part of `__asan_report_error` (asan_rtl.cc:305-340):

```
const char *bug_descr = "unknown-crash";
if (AddrIsInMem(addr)) {
  uint8_t *shadow_addr = (uint8_t*)MemToShadow(addr);
  if (*shadow_addr == 0 && access_size > SHADOW_GRANULARITY) shadow_addr++;
  if (*shadow_addr > 0 && *shadow_addr < 128) shadow_addr++;
  switch (*shadow_addr) { ... }
}
```

Returns the bug description and the list of distinct shadow addresses
that were read. -/
def classifyFault (shadow : Nat → Nat) (memToShadow : Nat → Nat)
    (addrIsInMem : Nat → Bool) (gran addr access_size : Nat) :
    String × List Nat :=
  if addrIsInMem addr then
    let s0 := memToShadow addr
    let s1 := if shadow s0 = 0 ∧ access_size > gran then s0 + 1 else s0
    let s2 := if 0 < shadow s1 ∧ shadow s1 < 128 then s1 + 1 else s1
    (magicDescr (shadow s2),
      s0 :: ((if s1 = s0 then [] else [s1]) ++ (if s2 = s1 then [] else [s2])))
  else ("unknown-crash", [])

/-- An access of `size` bytes at `addr` straddles a granule boundary. -/
def straddlesGranule (addr size gran : Nat) : Prop :=
  addr / gran ≠ (addr + size - 1) / gran

/-- C2 counterexample: a 1-byte access (which straddles no 8-byte granule
boundary) at an address whose shadow byte is the partial value 1 makes
the classifier read a second shadow byte, refuting "reads a second shadow
byte only when the access straddles an 8-byte granule boundary". -/
theorem classifyFault_second_read_counterexample :
    ¬ (2 ≤ (classifyFault (fun _ => 1) (fun a => a) (fun _ => true) 8 0 1).2.length →
        straddlesGranule 0 1 8) := by
  intro hcl
  have hreads : (classifyFault (fun _ => 1) (fun a => a) (fun _ => true) 8 0 1).2 = [0, 1] := by
    rfl
  have := hcl (by rw [hreads]; decide)
  exact this (by decide)

/-- C2 (amended): for an address inside the tracked range the classifier
reads the shadow byte of the address and at most two further consecutive
shadow bytes; it reads beyond the first byte iff the first byte is 0 and
the access is wider than a granule, or the first byte is a partial value
in `(0,128)`; the reported bug is the magic table applied to the last
byte read; outside the tracked range it reports unknown-crash without
reading shadow.  The magic table maps each magic to its category. -/
theorem classifyFault_spec (shadow : Nat → Nat) (memToShadow : Nat → Nat)
    (addrIsInMem : Nat → Bool) (gran addr access_size : Nat) :
    (addrIsInMem addr = false →
      classifyFault shadow memToShadow addrIsInMem gran addr access_size
        = ("unknown-crash", [])) ∧
    (addrIsInMem addr = true →
      (classifyFault shadow memToShadow addrIsInMem gran addr access_size).2.head?
          = some (memToShadow addr) ∧
      (∃ t : Nat, t ≤ 2 ∧
        (classifyFault shadow memToShadow addrIsInMem gran addr access_size).1
          = magicDescr (shadow (memToShadow addr + t)) ∧
        (classifyFault shadow memToShadow addrIsInMem gran addr access_size).2
          = (List.range (t + 1)).map (fun i => memToShadow addr + i)) ∧
      (2 ≤ (classifyFault shadow memToShadow addrIsInMem gran addr access_size).2.length ↔
        (shadow (memToShadow addr) = 0 ∧ gran < access_size) ∨
          (0 < shadow (memToShadow addr) ∧ shadow (memToShadow addr) < 128))) ∧
    (magicDescr kAsanHeapLeftRedzoneMagic = "heap-buffer-overflow" ∧
      magicDescr kAsanHeapRightRedzoneMagic = "heap-buffer-overflow" ∧
      magicDescr kAsanHeapFreeMagic = "heap-use-after-free" ∧
      magicDescr kAsanStackLeftRedzoneMagic = "stack-buffer-underflow" ∧
      magicDescr kAsanStackMidRedzoneMagic = "stack-buffer-overflow" ∧
      magicDescr kAsanStackRightRedzoneMagic = "stack-buffer-overflow" ∧
      magicDescr kAsanStackPartialRedzoneMagic = "stack-buffer-overflow" ∧
      magicDescr kAsanStackAfterReturnMagic = "stack-use-after-return" ∧
      magicDescr kAsanUserPoisonedMemoryMagic = "use-after-poison" ∧
      magicDescr kAsanGlobalRedzoneMagic = "global-buffer-overflow") := by
  refine ⟨fun hmem => ?_, fun hmem => ?_, by decide⟩
  · simp [classifyFault, hmem]
  · by_cases c1 : shadow (memToShadow addr) = 0 ∧ access_size > gran
    · -- first advance taken; the byte at s0+1 decides whether to advance again
      by_cases c2 : 0 < shadow (memToShadow addr + 1) ∧ shadow (memToShadow addr + 1) < 128
      · refine ⟨?_, ⟨2, by omega, ?_, ?_⟩, ?_⟩ <;>
          simp [classifyFault, hmem, c1, c2, List.range_succ]
      · refine ⟨?_, ⟨1, by omega, ?_, ?_⟩, ?_⟩ <;>
          simp [classifyFault, hmem, c1, c2, List.range_succ]
    · by_cases c2 : 0 < shadow (memToShadow addr) ∧ shadow (memToShadow addr) < 128
      · refine ⟨?_, ⟨1, by omega, ?_, ?_⟩, ?_⟩ <;>
          simp [classifyFault, hmem, c1, c2, List.range_succ]
      · refine ⟨?_, ⟨0, by omega, ?_, ?_⟩, ?_⟩ <;>
          simp [classifyFault, hmem, c1, c2, List.range_succ]


/-! ## `SizeClassAllocator64` regions and the thread-local cache
(sanitizer_allocator.h:130-349, 554-608)

The intrusive free lists live in `IntrusiveList` (sanitizer_list.h, not
part of this core's sources).  Modelled from the spec: a Region "owns a
free list", `Deallocate` "push[es] to local cache" and flushes "half back
to the Region's free list as one batch"; the list is therefore modelled
as a Lean `List Nat` of node addresses with `push_front = List.cons`,
`pop_front = tail`, `size = length`, and `append_front l` splicing the
donated list, in order, in front of the receiving list. -/

structure A64Params where
  spaceBeg : Nat
  spaceSize : Nat
  metadataSize : Nat
  map : SplineParams

namespace A64Params

def kNumClasses (Q : A64Params) : Nat := Q.map.kNumClasses
def kRegionSize (Q : A64Params) : Nat := Q.spaceSize / Q.kNumClasses

end A64Params

def kPopulateSize : Nat := 2 ^ 18
def kUserMapSize : Nat := 2 ^ 22
def kMetaMapSize : Nat := 2 ^ 20

/-- `RegionInfo` (sanitizer_allocator.h:263-270) without its lock: the
free list and the four allocation counters. -/
structure RegionState where
  free_list : List Nat
  allocated_user : Nat
  allocated_meta : Nat
  mapped_user : Nat
  mapped_meta : Nat
deriving DecidableEq

def emptyRegion : RegionState :=
  { free_list := [], allocated_user := 0, allocated_meta := 0,
    mapped_user := 0, mapped_meta := 0 }

/-- Per-class region array of `SizeClassAllocator64`. -/
structure A64State where
  regions : Nat → RegionState

/-- The do-while loop of `PopulateFreeList` (sanitizer_allocator.h:306-313):
pushes `region_beg + idx` for `idx = beg_idx, beg_idx+size, ...` while
`idx < end_idx`, at least once.  Returns the pushed addresses in push
order, the final `idx`, and the iteration count `i`.  The `0 < size`
guard makes the model total; the source loops forever when `size = 0`,
and every call site has `0 < size`. -/
def populateLoop (region_beg size idx end_idx : Nat) : List Nat × Nat × Nat :=
  let p := region_beg + idx
  if h : idx + size < end_idx ∧ 0 < size then
    let r := populateLoop region_beg size (idx + size) end_idx
    (p :: r.1, r.2.1, r.2.2 + 1)
  else ([p], idx + size, 1)
termination_by end_idx - idx
decreasing_by omega

/-- `SizeClassAllocator64::PopulateFreeList` (sanitizer_allocator.h:294-329).
`CHECK` failures and the final out-of-memory `Die()` are the error
outcomes.  The nodes are pushed with `push_front`, so with the (checked)
empty initial list the final list is the reverse of push order. -/
def populateFreeList (Q : A64Params) (class_id : Nat) (r : RegionState) :
    Except Fatal RegionState :=
  if ¬ r.free_list = [] then .error .checkFailed
  else
    let size := Q.map.SizeOf class_id
    let beg_idx := r.allocated_user
    let end_idx := beg_idx + kPopulateSize
    let region_beg := Q.spaceBeg + Q.kRegionSize * class_id
    let step1 : Except Fatal RegionState :=
      if end_idx > r.mapped_user then
        if r.mapped_user + kUserMapSize > end_idx then
          .ok { r with mapped_user := r.mapped_user + kUserMapSize }
        else .error .checkFailed
      else .ok r
    match step1 with
    | .error e => .error e
    | .ok r1 =>
      let L := populateLoop region_beg size beg_idx end_idx
      let r2 := { r1 with
        free_list := L.1.reverse ++ r1.free_list,
        allocated_user := r1.allocated_user + (L.2.1 - beg_idx),
        allocated_meta := r1.allocated_meta + L.2.2 * Q.metadataSize }
      let step3 : Except Fatal RegionState :=
        if r2.allocated_meta > r2.mapped_meta then
          if r2.mapped_meta + kMetaMapSize > r2.allocated_meta then
            .ok { r2 with mapped_meta := r2.mapped_meta + kMetaMapSize }
          else .error .checkFailed
        else .ok r2
      match step3 with
      | .error e => .error e
      | .ok r3 =>
        if r3.allocated_user + r3.allocated_meta > Q.kRegionSize then
          .error .outOfMemory
        else .ok r3

/-- `BulkMove` (sanitizer_allocator.h:105-122): move at most `max_count`
nodes from `from_list` to the (checked empty) `to_list`; when everything
fits, the whole list is spliced over in order, otherwise `max_count`
nodes are popped from the front and pushed onto the front of the target
(reversing them).  Returns (rest of `from_list`, new `to_list`); the
final `CHECK(!allocate_to->empty())` fires when nothing was moved. -/
def bulkMove (max_count : Nat) (from_list to_list : List Nat) :
    Except Fatal (List Nat × List Nat) :=
  if from_list = [] then .error .checkFailed
  else if ¬ to_list = [] then .error .checkFailed
  else
    let pair :=
      if from_list.length ≤ max_count then (([] : List Nat), from_list)
      else (from_list.drop max_count, (from_list.take max_count).reverse)
    if pair.2 = [] then .error .checkFailed else .ok pair

/-- `SizeClassAllocator64::BulkAllocate` (sanitizer_allocator.h:184-192):
under the region lock, populate the free list if empty, then bulk-move up
to `MaxCached(class_id)` nodes into the caller's list. -/
def a64BulkAllocate (Q : A64Params) (st : A64State) (class_id : Nat)
    (cache_list : List Nat) : Except Fatal (A64State × List Nat) :=
  if ¬ class_id < Q.kNumClasses then .error .checkFailed
  else
    let region := st.regions class_id
    let popd : Except Fatal RegionState :=
      if region.free_list = [] then populateFreeList Q class_id region
      else .ok region
    match popd with
    | .error e => .error e
    | .ok r1 =>
      match bulkMove (Q.map.MaxCached class_id) r1.free_list cache_list with
      | .error e => .error e
      | .ok (rest, moved) =>
        .ok ({ regions := fun c =>
                if c = class_id then { r1 with free_list := rest }
                else st.regions c },
             moved)

/-- `SizeClassAllocator64::BulkDeallocate` (sanitizer_allocator.h:195-200):
under the region lock, splice the whole donated list onto the front of
the region's free list in one `append_front`. -/
def a64BulkDeallocate (Q : A64Params) (st : A64State) (class_id : Nat)
    (donated : List Nat) : Except Fatal A64State :=
  if ¬ class_id < Q.kNumClasses then .error .checkFailed
  else
    .ok { regions := fun c =>
      if c = class_id then
        { st.regions c with free_list := donated ++ (st.regions c).free_list }
      else st.regions c }

/-- The per-thread `SizeClassAllocatorLocalCache` free lists
(sanitizer_allocator.h:594). -/
structure CacheState where
  free_lists : Nat → List Nat

/-- `SizeClassAllocatorLocalCache::Allocate` (sanitizer_allocator.h:566-575):
pop from the local list; on miss refill it with `BulkAllocate` first. -/
def cacheAllocate (Q : A64Params) (alloc : A64State) (cache : CacheState)
    (class_id : Nat) : Except Fatal (Nat × A64State × CacheState) :=
  if ¬ class_id < Q.kNumClasses then .error .checkFailed
  else
    let fl := cache.free_lists class_id
    let refilled : Except Fatal (A64State × List Nat) :=
      if fl = [] then a64BulkAllocate Q alloc class_id fl
      else .ok (alloc, fl)
    match refilled with
    | .error e => .error e
    | .ok (alloc1, fl1) =>
      match fl1 with
      | [] => .error .checkFailed
      | p :: rest =>
        .ok (p, alloc1,
          { free_lists := fun c =>
              if c = class_id then rest else cache.free_lists c })

/-- `SizeClassAllocatorLocalCache::DrainHalf` (sanitizer_allocator.h:596-607):
pop `size/2` nodes from the front of the local list, pushing each onto
the front of the batch (reversing them), then hand the batch to
`BulkDeallocate` in one call. -/
def cacheDrainHalf (Q : A64Params) (alloc : A64State) (cache : CacheState)
    (class_id : Nat) : Except Fatal (A64State × CacheState) :=
  let fl := cache.free_lists class_id
  let count := fl.length / 2
  let half := (fl.take count).reverse
  match a64BulkDeallocate Q alloc class_id half with
  | .error e => .error e
  | .ok alloc' =>
    .ok (alloc',
      { free_lists := fun c =>
          if c = class_id then fl.drop count else cache.free_lists c })

/-- `SizeClassAllocatorLocalCache::Deallocate` (sanitizer_allocator.h:577-583):
push onto the local list; when its length reaches
`2 * MaxCached(class_id)`, drain half of it. -/
def cacheDeallocate (Q : A64Params) (alloc : A64State) (cache : CacheState)
    (class_id : Nat) (p : Nat) : Except Fatal (A64State × CacheState) :=
  if ¬ class_id < Q.kNumClasses then .error .checkFailed
  else
    let fl := p :: cache.free_lists class_id
    let cache1 : CacheState :=
      { free_lists := fun c =>
          if c = class_id then fl else cache.free_lists c }
    if 2 * Q.map.MaxCached class_id ≤ fl.length then
      cacheDrainHalf Q alloc cache1 class_id
    else .ok (alloc, cache1)



/-- The refill path shared by the cache-miss cases: with a valid class id,
a positive cache cap, and the (possibly populated) region list `r1`
nonempty, `BulkAllocate` hands over `min (MaxCached class_id) |r1|`
nodes taken from the front of the region list and leaves the rest. -/
theorem a64BulkAllocate_spec (Q : A64Params) (alloc : A64State)
    (class_id : Nat) (hcid : class_id < Q.kNumClasses)
    (hM : 0 < Q.map.MaxCached class_id) (r1 : RegionState)
    (hpop : (if (alloc.regions class_id).free_list = []
        then populateFreeList Q class_id (alloc.regions class_id)
        else .ok (alloc.regions class_id)) = .ok r1)
    (hne : r1.free_list ≠ []) :
    ∃ moved_list,
      a64BulkAllocate Q alloc class_id [] = .ok
        ({ regions := fun c =>
            if c = class_id then
              { r1 with free_list := r1.free_list.drop (min (Q.map.MaxCached class_id) r1.free_list.length) }
            else alloc.regions c }, moved_list) ∧
      moved_list.length
        = min (Q.map.MaxCached class_id) r1.free_list.length ∧
      moved_list ≠ [] ∧
      ∀ q ∈ moved_list,
        q ∈ r1.free_list.take (min (Q.map.MaxCached class_id) r1.free_list.length) := by
  by_cases hlen : r1.free_list.length ≤ Q.map.MaxCached class_id
  · have hdrop : r1.free_list.drop
        (min (Q.map.MaxCached class_id) r1.free_list.length) = [] := by
      rw [Nat.min_eq_right hlen, List.drop_length]
    have hbm : bulkMove (Q.map.MaxCached class_id) r1.free_list []
        = .ok ([], r1.free_list) := by
      simp [bulkMove, hne, hlen]
    refine ⟨r1.free_list, ?_, ?_, hne, ?_⟩
    · simp only [a64BulkAllocate]
      rw [if_neg (not_not_intro hcid), hpop]
      simp only [hbm, hdrop]
    · rw [Nat.min_eq_right hlen]
    · intro q hq
      rw [Nat.min_eq_right hlen, List.take_length]
      exact hq
  · have hmle : Q.map.MaxCached class_id ≤ r1.free_list.length := by omega
    have hmin : min (Q.map.MaxCached class_id) r1.free_list.length
        = Q.map.MaxCached class_id := Nat.min_eq_left hmle
    have htlen : (r1.free_list.take (Q.map.MaxCached class_id)).length
        = Q.map.MaxCached class_id := by
      rw [List.length_take]
      omega
    have htne : (r1.free_list.take (Q.map.MaxCached class_id)).reverse ≠ [] := by
      intro hcon
      have hlc := congrArg List.length hcon
      rw [List.length_reverse, htlen] at hlc
      simp at hlc
      omega
    have hbm : bulkMove (Q.map.MaxCached class_id) r1.free_list []
        = .ok (r1.free_list.drop (Q.map.MaxCached class_id),
            (r1.free_list.take (Q.map.MaxCached class_id)).reverse) := by
      simp [bulkMove, hne, hlen, htne]
    refine ⟨(r1.free_list.take (Q.map.MaxCached class_id)).reverse, ?_, ?_, htne, ?_⟩
    · simp only [a64BulkAllocate]
      rw [if_neg (not_not_intro hcid), hpop]
      simp only [hbm, hmin]
    · rw [List.length_reverse, htlen, hmin]
    · intro q hq
      rw [hmin]
      exact List.mem_reverse.mp hq

/-- C5: the thread-local cache's `Allocate` pops from the local free list
when it is non-empty (leaving every region untouched); on a miss it moves
at most `MaxCached(c)` nodes from the region's free list into the local
cache, first populating the region's free list if it is empty; a fatal
populate outcome (out-of-memory included) aborts the allocation; and
population never succeeds with more than the region's reserved
`kRegionSize` bytes accounted — exceeding it is the fatal path. -/
theorem cacheAllocate_spec (Q : A64Params) (alloc : A64State)
    (cache : CacheState) (class_id : Nat)
    (hcid : class_id < Q.kNumClasses)
    (hM : 0 < Q.map.MaxCached class_id) :
    (∀ p rest, cache.free_lists class_id = p :: rest →
      cacheAllocate Q alloc cache class_id
        = .ok (p, alloc,
            { free_lists := fun c =>
                if c = class_id then rest else cache.free_lists c })) ∧
    (cache.free_lists class_id = [] →
      (alloc.regions class_id).free_list ≠ [] →
      ∃ q alloc' cache',
        cacheAllocate Q alloc cache class_id = .ok (q, alloc', cache') ∧
        (alloc'.regions class_id).free_list
          = (alloc.regions class_id).free_list.drop (min (Q.map.MaxCached class_id) (alloc.regions class_id).free_list.length) ∧
        (∀ c, c ≠ class_id → alloc'.regions c = alloc.regions c) ∧
        (cache'.free_lists class_id).length + 1
          = min (Q.map.MaxCached class_id)
              (alloc.regions class_id).free_list.length ∧
        q ∈ (alloc.regions class_id).free_list.take (min (Q.map.MaxCached class_id) (alloc.regions class_id).free_list.length)) ∧
    (cache.free_lists class_id = [] →
      (alloc.regions class_id).free_list = [] →
      (∀ e, populateFreeList Q class_id (alloc.regions class_id) = .error e →
        cacheAllocate Q alloc cache class_id = .error e) ∧
      (∀ r1, populateFreeList Q class_id (alloc.regions class_id) = .ok r1 →
        r1.free_list ≠ [] →
        ∃ q alloc' cache',
          cacheAllocate Q alloc cache class_id = .ok (q, alloc', cache') ∧
          (alloc'.regions class_id).free_list
            = r1.free_list.drop (min (Q.map.MaxCached class_id) r1.free_list.length))) ∧
    (∀ r r3 : RegionState, populateFreeList Q class_id r = .ok r3 →
      r3.allocated_user + r3.allocated_meta ≤ Q.kRegionSize) := by
  refine ⟨?_, ?_, ?_, ?_⟩
  · intro p rest hfl
    simp [cacheAllocate, hfl, hcid]
  · intro hfl hne
    obtain ⟨moved, hbulk, hmlen, hmne, hmtake⟩ :=
      a64BulkAllocate_spec Q alloc class_id hcid hM (alloc.regions class_id)
        (by rw [if_neg hne]) hne
    obtain ⟨q, qtl, hq⟩ := List.exists_cons_of_ne_nil hmne
    rw [hq] at hbulk
    refine ⟨q,
      { regions := fun c =>
          if c = class_id then
            { alloc.regions class_id with free_list := (alloc.regions class_id).free_list.drop (min (Q.map.MaxCached class_id) (alloc.regions class_id).free_list.length) }
          else alloc.regions c },
      { free_lists := fun c =>
          if c = class_id then qtl else cache.free_lists c },
      ?_, ?_, ?_, ?_, ?_⟩
    · simp only [cacheAllocate, hfl]
      rw [if_neg (not_not_intro hcid)]
      simp only [if_pos rfl, hbulk]
      simp
    · exact congrArg RegionState.free_list (if_pos rfl)
    · intro c hc
      simp [hc]
    · have hlq := congrArg List.length hq
      simp only [List.length_cons] at hlq
      have hcc : (({ free_lists := fun c =>
            if c = class_id then qtl else cache.free_lists c } : CacheState).free_lists class_id)
          = qtl := if_pos rfl
      rw [hcc]
      omega
    · refine hmtake q ?_
      rw [hq]
      exact List.mem_cons_self q qtl
  · intro hfl hreg
    constructor
    · intro e he
      have hbulkerr : a64BulkAllocate Q alloc class_id [] = .error e := by
        simp only [a64BulkAllocate]
        rw [if_neg (not_not_intro hcid), if_pos hreg, he]
      simp only [cacheAllocate, hfl]
      rw [if_neg (not_not_intro hcid)]
      simp only [if_pos rfl, hbulkerr]
      simp
    · intro r1 hr1 hne
      obtain ⟨moved, hbulk, hmlen, hmne, hmtake⟩ :=
        a64BulkAllocate_spec Q alloc class_id hcid hM r1
          (by rw [if_pos hreg, hr1]) hne
      obtain ⟨q, qtl, hq⟩ := List.exists_cons_of_ne_nil hmne
      rw [hq] at hbulk
      refine ⟨q,
        { regions := fun c =>
            if c = class_id then
              { r1 with free_list := r1.free_list.drop (min (Q.map.MaxCached class_id) r1.free_list.length) }
            else alloc.regions c },
        { free_lists := fun c =>
            if c = class_id then qtl else cache.free_lists c },
        ?_, ?_⟩
      · simp only [cacheAllocate, hfl]
        rw [if_neg (not_not_intro hcid)]
        simp only [if_pos rfl, hbulk]
        simp
      · simp
  · intro r r3 hok
    simp only [populateFreeList] at hok
    repeat' split at hok
    all_goals first
      | exact Except.noConfusion hok
      | (injection hok with h
         subst h
         omega)


/-- Case analysis of the cache `Deallocate` path, shared by the claims
about it: the push, the drain trigger, and the drained batch. -/
theorem cacheDeallocate_cases (Q : A64Params) (alloc : A64State)
    (cache : CacheState) (class_id p : Nat)
    (hcid : class_id < Q.kNumClasses) :
    (¬ 2 * Q.map.MaxCached class_id ≤ (p :: cache.free_lists class_id).length →
      cacheDeallocate Q alloc cache class_id p
        = .ok (alloc,
            { free_lists := fun c =>
                if c = class_id then p :: cache.free_lists class_id
                else cache.free_lists c })) ∧
    (2 * Q.map.MaxCached class_id ≤ (p :: cache.free_lists class_id).length →
      ∃ alloc' cache',
        cacheDeallocate Q alloc cache class_id p = .ok (alloc', cache') ∧
        (alloc'.regions class_id).free_list
          = ((p :: cache.free_lists class_id).take ((p :: cache.free_lists class_id).length / 2)).reverse
            ++ (alloc.regions class_id).free_list ∧
        ((p :: cache.free_lists class_id).take ((p :: cache.free_lists class_id).length / 2)).length
          = (p :: cache.free_lists class_id).length / 2 ∧
        (∀ c, c ≠ class_id → alloc'.regions c = alloc.regions c) ∧
        cache'.free_lists class_id
          = (p :: cache.free_lists class_id).drop ((p :: cache.free_lists class_id).length / 2) ∧
        (∀ c, c ≠ class_id → cache'.free_lists c = cache.free_lists c)) := by
  constructor
  · intro hlt
    simp only [cacheDeallocate]
    rw [if_neg (not_not_intro hcid), if_neg hlt]
  · intro hge
    refine ⟨{ regions := fun c =>
        if c = class_id then
          { alloc.regions c with free_list :=
              ((p :: cache.free_lists class_id).take ((p :: cache.free_lists class_id).length / 2)).reverse
                ++ (alloc.regions c).free_list }
        else alloc.regions c },
      { free_lists := fun c =>
          if c = class_id then
            (p :: cache.free_lists class_id).drop ((p :: cache.free_lists class_id).length / 2)
          else cache.free_lists c },
      ?_, ?_, ?_, ?_, ?_, ?_⟩
    · simp only [cacheDeallocate, cacheDrainHalf, a64BulkDeallocate]
      rw [if_neg (not_not_intro hcid)]
      rw [if_pos hge, if_neg (not_not_intro hcid)]
      simp only [Except.ok.injEq, Prod.mk.injEq]
      refine ⟨?_, ?_⟩ <;> first
        | rfl
        | (congr 1
           funext c
           by_cases hc : c = class_id
           · simp [hc]
           · simp [hc])
    · exact congrArg RegionState.free_list (if_pos rfl)
    · rw [List.length_take]
      have := Nat.div_le_self (p :: cache.free_lists class_id).length 2
      simp only [List.length_cons] at this ⊢
      omega
    · intro c hc
      exact if_neg hc
    · exact if_pos rfl
    · intro c hc
      exact if_neg hc

/-- C4 (amended): `Deallocate(p)` pushes `p` onto the cache's free list
for its class and, exactly when that list's length has reached at least
`2 * MaxCached(c)`, returns `length/2` nodes from its front to the
region's free list as one spliced batch (a single `BulkDeallocate` under
one region lock); otherwise the region free lists are untouched. -/
theorem cacheDeallocate_spec (Q : A64Params) (alloc : A64State)
    (cache : CacheState) (class_id p : Nat)
    (hcid : class_id < Q.kNumClasses) :
    (¬ 2 * Q.map.MaxCached class_id ≤ (p :: cache.free_lists class_id).length →
      cacheDeallocate Q alloc cache class_id p
        = .ok (alloc,
            { free_lists := fun c =>
                if c = class_id then p :: cache.free_lists class_id
                else cache.free_lists c })) ∧
    (2 * Q.map.MaxCached class_id ≤ (p :: cache.free_lists class_id).length →
      ∃ alloc' cache',
        cacheDeallocate Q alloc cache class_id p = .ok (alloc', cache') ∧
        (alloc'.regions class_id).free_list
          = ((p :: cache.free_lists class_id).take ((p :: cache.free_lists class_id).length / 2)).reverse
            ++ (alloc.regions class_id).free_list ∧
        ((p :: cache.free_lists class_id).take ((p :: cache.free_lists class_id).length / 2)).length
          = (p :: cache.free_lists class_id).length / 2 ∧
        (∀ c, c ≠ class_id → alloc'.regions c = alloc.regions c) ∧
        cache'.free_lists class_id
          = (p :: cache.free_lists class_id).drop ((p :: cache.free_lists class_id).length / 2) ∧
        (∀ c, c ≠ class_id → cache'.free_lists c = cache.free_lists c)) :=
  cacheDeallocate_cases Q alloc cache class_id p hcid

/-- Concrete allocator instantiation for witnesses: the address-space
constants of sanitizer_allocator64_testlib.cc (space at 0x600000000000,
2^40 bytes) with the default size-class map and 16 metadata bytes. -/
def testA64Params : A64Params :=
  { spaceBeg := 0x600000000000, spaceSize := 0x10000000000,
    metadataSize := 16, map := DefaultSizeClassMap }

/-- A cache holding one node in the free list of class 255. -/
def cexCache : CacheState :=
  { free_lists := fun c => if c = 255 then [11] else [] }

/-- An allocator state with every region free list empty. -/
def cexAlloc : A64State := { regions := fun _ => emptyRegion }

/-- C4 counterexample: class 255 has `MaxCached = 1`; after pushing a
node the cache list has length 2, which does not strictly exceed
`2 * MaxCached = 2`, yet `Deallocate` drains half of it into the region
free list (the source triggers on `>=`, the claim's "exceeds" reads
`>`), so the region list is not left untouched. -/
theorem cacheDeallocate_boundary_counterexample :
    ¬ 2 * SplineParams.MaxCached DefaultSizeClassMap 255
        < (7 :: cexCache.free_lists 255).length ∧
    (Except.map (fun pr => ((pr.1.regions 255).free_list, pr.2.free_lists 255))
        (cacheDeallocate testA64Params cexAlloc cexCache 255 7))
      = .ok ([7], [11]) := by
  constructor
  · decide
  · rfl

/-- Witness for C4 at the same concrete input (the threshold is reached,
so the drain branch of the theorem applies). -/
theorem cacheDeallocate_spec_witness :
    (255 : Nat) < testA64Params.kNumClasses ∧
      (2 * testA64Params.map.MaxCached 255 ≤ (7 :: cexCache.free_lists 255).length →
        ∃ alloc' cache',
          cacheDeallocate testA64Params cexAlloc cexCache 255 7 = .ok (alloc', cache') ∧
          (alloc'.regions 255).free_list
            = ((7 :: cexCache.free_lists 255).take ((7 :: cexCache.free_lists 255).length / 2)).reverse
              ++ (cexAlloc.regions 255).free_list ∧
          ((7 :: cexCache.free_lists 255).take ((7 :: cexCache.free_lists 255).length / 2)).length
            = (7 :: cexCache.free_lists 255).length / 2 ∧
          (∀ c, c ≠ 255 → alloc'.regions c = cexAlloc.regions c) ∧
          cache'.free_lists 255
            = (7 :: cexCache.free_lists 255).drop ((7 :: cexCache.free_lists 255).length / 2) ∧
          (∀ c, c ≠ 255 → cache'.free_lists c = cexCache.free_lists c)) :=
  ⟨by decide,
    (cacheDeallocate_spec testA64Params cexAlloc cexCache 255 7 (by decide)).2⟩

/-- Witness for C5: class 255 of the concrete instantiation, with an
empty local cache and a region list holding two nodes; the refill moves
`min (MaxCached 255) 2 = 1` node. -/
theorem cacheAllocate_spec_witness :
    (255 : Nat) < testA64Params.kNumClasses ∧
      0 < testA64Params.map.MaxCached 255 ∧
      ((({ free_lists := fun _ => [] } : CacheState).free_lists 255) = [] →
        ((({ regions := fun c => if c = 255 then
              { emptyRegion with free_list := [5, 6] } else emptyRegion } : A64State).regions 255).free_list ≠ []) →
        ∃ q alloc' cache',
          cacheAllocate testA64Params
              { regions := fun c => if c = 255 then
                  { emptyRegion with free_list := [5, 6] } else emptyRegion }
              { free_lists := fun _ => [] } 255 = .ok (q, alloc', cache') ∧
          (alloc'.regions 255).free_list
            = (({ regions := fun c => if c = 255 then
                { emptyRegion with free_list := [5, 6] } else emptyRegion } : A64State).regions 255).free_list.drop
                (min (testA64Params.map.MaxCached 255)
                  (({ regions := fun c => if c = 255 then
                    { emptyRegion with free_list := [5, 6] } else emptyRegion } : A64State).regions 255).free_list.length) ∧
          (∀ c, c ≠ 255 → alloc'.regions c
            = ({ regions := fun c => if c = 255 then
                { emptyRegion with free_list := [5, 6] } else emptyRegion } : A64State).regions c) ∧
          (cache'.free_lists 255).length + 1
            = min (testA64Params.map.MaxCached 255)
                (({ regions := fun c => if c = 255 then
                  { emptyRegion with free_list := [5, 6] } else emptyRegion } : A64State).regions 255).free_list.length ∧
          q ∈ (({ regions := fun c => if c = 255 then
              { emptyRegion with free_list := [5, 6] } else emptyRegion } : A64State).regions 255).free_list.take
                (min (testA64Params.map.MaxCached 255)
                  (({ regions := fun c => if c = 255 then
                    { emptyRegion with free_list := [5, 6] } else emptyRegion } : A64State).regions 255).free_list.length)) :=
  ⟨by decide, by decide,
    (cacheAllocate_spec testA64Params
      { regions := fun c => if c = 255 then
          { emptyRegion with free_list := [5, 6] } else emptyRegion }
      { free_lists := fun _ => [] } 255 (by decide) (by decide)).2.1⟩


/-! ## `LargeMmapAllocator` (sanitizer_allocator.h:610-732)

Each allocation is its own mapping with a one-page header before the
user pointer.  `MmapOrDie` never returns null (it dies); its results are
supplied by an oracle `mm : Nat → Nat` giving the base of the n-th
mapping.  Byte contents (headers live in mapped memory) are carried in
the chunk records. -/

structure LargeChunk where
  map_beg : Nat
  map_size : Nat
  size : Nat
  user : Nat
deriving DecidableEq

structure LargeState where
  page_size : Nat
  chunks : List LargeChunk
  mmapCount : Nat

/-- `RoundUpMapSize` (sanitizer_allocator.h:725-727) on `uptr`. -/
def roundUpMapSize (page size : Nat) : Nat :=
  add64 (roundUpTo64 size page) page

/-- `LargeMmapAllocator::Allocate` (sanitizer_allocator.h:620-648).
Returns 0 (null) without mapping when the map size computation
overflows. -/
def largeAllocate (mm : Nat → Nat) (st : LargeState) (size alignment : Nat) :
    Except Fatal (Nat × LargeState) :=
  if ¬ alignment &&& (alignment - 1) = 0 then .error .checkFailed
  else
    let map_size0 := roundUpMapSize st.page_size size
    let map_size := if alignment > st.page_size then add64 map_size0 alignment
      else map_size0
    if map_size < size then .ok (0, st)
    else
      let map_beg := mm st.mmapCount
      let map_end := map_beg + map_size
      let res0 := map_beg + st.page_size
      let res := if res0 &&& (alignment - 1) ≠ 0
        then res0 + (alignment - (res0 &&& (alignment - 1))) else res0
      if ¬ res &&& (alignment - 1) = 0 then .error .checkFailed
      else if ¬ res + size ≤ map_end then .error .checkFailed
      else .ok (res,
        { st with
          chunks := { map_beg := map_beg, map_size := map_size,
                      size := size, user := res } :: st.chunks,
          mmapCount := st.mmapCount + 1 })

/-- Unlink of `LargeMmapAllocator::Deallocate` (sanitizer_allocator.h:650-665):
remove the chunk whose header precedes `p`. -/
def removeUser : List LargeChunk → Nat → List LargeChunk
  | [], _ => []
  | c :: rest, p => if c.user = p then rest else c :: removeUser rest p

def largeDeallocate (st : LargeState) (p : Nat) : LargeState :=
  { st with chunks := removeUser st.chunks p }

/-- `LargeMmapAllocator::PointerIsMine` (sanitizer_allocator.h:676-684). -/
def largePointerIsMine (st : LargeState) (p : Nat) : Bool :=
  if p &&& (st.page_size - 1) ≠ 0 then false
  else st.chunks.any (fun c => c.user = p)

/-- `LargeMmapAllocator::GetActuallyAllocatedSize`
(sanitizer_allocator.h:686-688); the header is read from the chunk
records. -/
def largeGetActuallyAllocatedSize (st : LargeState) (p : Nat) : Nat :=
  match st.chunks.find? (fun c => c.user = p) with
  | some c => roundUpMapSize st.page_size c.size - st.page_size
  | none => 0

/-! ## `CombinedAllocator` (sanitizer_allocator.h:734-833), instantiated
with `SizeClassAllocator64` (via the thread-local cache) as primary and
`LargeMmapAllocator` as secondary. -/

structure CombinedState where
  primary : A64State
  cache : CacheState
  secondary : LargeState

/-- `SizeClassAllocator64::PointerIsMine` (sanitizer_allocator.h:202-204). -/
def primPointerIsMine (Q : A64Params) (p : Nat) : Bool :=
  p / Q.spaceSize = Q.spaceBeg / Q.spaceSize

/-- `SizeClassAllocator64::GetSizeClass` (sanitizer_allocator.h:206-208). -/
def primGetSizeClass (Q : A64Params) (p : Nat) : Nat :=
  p / Q.kRegionSize % Q.kNumClasses

/-- `SizeClassAllocator64::CanAllocate` (sanitizer_allocator.h:167-170). -/
def primCanAllocate (Q : A64Params) (size alignment : Nat) : Bool :=
  size ≤ Q.map.kMaxSize ∧ alignment ≤ Q.map.kMaxSize

/-- `CombinedAllocator::Allocate` (sanitizer_allocator.h:749-768).  The
`cleared` memset touches only byte contents, which this model does not
carry. -/
def combinedAllocate (Q : A64Params) (mm : Nat → Nat) (st : CombinedState)
    (size0 alignment : Nat) (cleared : Bool) :
    Except Fatal (Nat × CombinedState) :=
  let size1 := if size0 = 0 then 1 else size0
  if add64 size1 alignment < size1 then .ok (0, st)
  else
    let size := if alignment > 8 then roundUpTo64 size1 alignment else size1
    if primCanAllocate Q size alignment then
      match cacheAllocate Q st.primary st.cache (Q.map.ClassIDOf size) with
      | .error e => .error e
      | .ok (res, alloc', cache') =>
        if alignment > 8 ∧ ¬ res &&& (alignment - 1) = 0 then .error .checkFailed
        else .ok (res, { st with primary := alloc', cache := cache' })
    else
      match largeAllocate mm st.secondary size alignment with
      | .error e => .error e
      | .ok (res, sec') =>
        if alignment > 8 ∧ ¬ res &&& (alignment - 1) = 0 then .error .checkFailed
        else .ok (res, { st with secondary := sec' })

/-- `CombinedAllocator::Deallocate` (sanitizer_allocator.h:770-776). -/
def combinedDeallocate (Q : A64Params) (st : CombinedState) (p : Nat) :
    Except Fatal CombinedState :=
  if p = 0 then .ok st
  else if primPointerIsMine Q p then
    match cacheDeallocate Q st.primary st.cache (primGetSizeClass Q p) p with
    | .error e => .error e
    | .ok (alloc', cache') => .ok { st with primary := alloc', cache := cache' }
  else .ok { st with secondary := largeDeallocate st.secondary p }

/-- `CombinedAllocator::PointerIsMine` (sanitizer_allocator.h:796-800). -/
def combinedPointerIsMine (Q : A64Params) (st : CombinedState) (p : Nat) : Bool :=
  primPointerIsMine Q p || largePointerIsMine st.secondary p

/-- `CombinedAllocator::Reallocate` (sanitizer_allocator.h:778-794).  The
`internal_memcpy` of `min(new_size, old_size)` bytes touches only byte
contents, which this model does not carry; note `Deallocate(cache, p)`
runs whether or not the fresh allocation succeeded. -/
def combinedReallocate (Q : A64Params) (mm : Nat → Nat) (st : CombinedState)
    (p new_size alignment : Nat) : Except Fatal (Nat × CombinedState) :=
  if p = 0 then combinedAllocate Q mm st new_size alignment false
  else if new_size = 0 then
    match combinedDeallocate Q st p with
    | .error e => .error e
    | .ok st' => .ok (0, st')
  else if ¬ combinedPointerIsMine Q st p then .error .checkFailed
  else
    match combinedAllocate Q mm st new_size alignment false with
    | .error e => .error e
    | .ok (new_p, st1) =>
      match combinedDeallocate Q st1 p with
      | .error e => .error e
      | .ok st2 => .ok (new_p, st2)

/-- C10: `CombinedAllocator::Deallocate` on the null pointer is a no-op:
it succeeds and leaves the primary allocator, the thread-local cache and
the secondary allocator exactly as they were. -/
theorem combinedDeallocate_null (Q : A64Params) (st : CombinedState) :
    combinedDeallocate Q st 0 = .ok st ∧
      ∀ st', combinedDeallocate Q st 0 = .ok st' →
        st'.primary = st.primary ∧ st'.cache = st.cache ∧
          st'.secondary = st.secondary := by
  refine ⟨rfl, fun st' h => ?_⟩
  have hst : st' = st := by
    have h0 : combinedDeallocate Q st 0 = .ok st := rfl
    rw [h0] at h
    exact (Except.ok.injEq _ _ ▸ h).symm
  rw [hst]
  exact ⟨rfl, rfl, rfl⟩


/-- A combined-allocator state with nothing allocated, used for concrete
inputs: empty regions and cache, no large chunks, 4K pages. -/
def cexCombined : CombinedState :=
  { primary := { regions := fun _ => emptyRegion },
    cache := { free_lists := fun _ => [] },
    secondary := { page_size := 4096, chunks := [], mmapCount := 0 } }

/-- C9 (amended): `Allocate` with size 0 behaves exactly as with size 1,
so a request is never null merely because the size is zero (the size-0
call returns null exactly when the size-1 call does); and when the
(adjusted) size plus alignment wraps around the address type, `Allocate`
returns null with no state change and no backend call. -/
theorem combinedAllocate_zero_spec (Q : A64Params) (mm : Nat → Nat)
    (st : CombinedState) (alignment : Nat) (cleared : Bool) :
    combinedAllocate Q mm st 0 alignment cleared
        = combinedAllocate Q mm st 1 alignment cleared ∧
      (add64 1 alignment < 1 →
        combinedAllocate Q mm st 0 alignment cleared = .ok (0, st)) ∧
      (∀ size : Nat, 1 ≤ size → add64 size alignment < size →
        combinedAllocate Q mm st size alignment cleared = .ok (0, st)) := by
  refine ⟨rfl, fun hover => ?_, fun size h1 hover => ?_⟩
  · simp only [combinedAllocate]
    rw [if_pos (by simpa using hover)]
  · simp only [combinedAllocate]
    rw [if_neg (by omega : ¬ size = 0)]
    rw [if_pos hover]

/-- C9 counterexample: with alignment `2^63`, `Allocate(0, ...)` returns
the null pointer through the secondary allocator's map-size overflow,
although `size + alignment` (`1 + 2^63`) does not overflow — refuting
"returns a non-null pointer for every alignment / null only when
size + alignment overflows". -/
theorem combinedAllocate_zero_counterexample :
    Except.map Prod.fst
        (combinedAllocate testA64Params (fun _ => 2 ^ 20) cexCombined 0 (2 ^ 63) false)
      = .ok 0 ∧
    ¬ add64 1 (2 ^ 63) < 1 := by
  constructor
  · rfl
  · decide

/-- The pointer handed to the cache `Deallocate` always ends up on a free
list: the local list below the drain threshold, and inside the drained
batch or the kept remainder above it. -/
theorem cacheDeallocate_mem (Q : A64Params) (alloc : A64State)
    (cache : CacheState) (class_id p : Nat)
    (hcid : class_id < Q.kNumClasses) :
    ∃ alloc' cache',
      cacheDeallocate Q alloc cache class_id p = .ok (alloc', cache') ∧
        (p ∈ cache'.free_lists class_id ∨
          p ∈ (alloc'.regions class_id).free_list) := by
  obtain ⟨hlow, hhigh⟩ := cacheDeallocate_cases Q alloc cache class_id p hcid
  by_cases htr : 2 * Q.map.MaxCached class_id ≤ (p :: cache.free_lists class_id).length
  · obtain ⟨alloc', cache', heq, hreg, hlen, hother, hcl, hcother⟩ := hhigh htr
    refine ⟨alloc', cache', heq, ?_⟩
    by_cases hcnt : (p :: cache.free_lists class_id).length / 2 = 0
    · left
      rw [hcl, hcnt, List.drop_zero]
      exact List.mem_cons_self p _
    · right
      rw [hreg]
      refine List.mem_append.mpr (Or.inl ?_)
      rw [List.mem_reverse]
      obtain ⟨m, hm⟩ : ∃ m, (p :: cache.free_lists class_id).length / 2 = m + 1 :=
        ⟨(p :: cache.free_lists class_id).length / 2 - 1, by omega⟩
      rw [hm, List.take_succ_cons]
      exact List.mem_cons_self p _
  · refine ⟨alloc, _, hlow htr, ?_⟩
    left
    simp

/-- C1 (amended): for `p ≠ 0` and `new_size ≠ 0` with `p` owned by the
allocator, `Reallocate` is exactly "allocate fresh, then deallocate the
old block": its return value is the fresh allocation's result (null only
when that allocation failed), and the old block is deallocated whether
or not the fresh allocation succeeded — on failure a primary-owned `p`
ends up on a free list rather than staying allocated. -/
theorem combinedReallocate_spec (Q : A64Params) (mm : Nat → Nat)
    (st : CombinedState) (p new_size alignment : Nat)
    (hp : p ≠ 0) (hn : new_size ≠ 0)
    (hmine : combinedPointerIsMine Q st p = true) :
    combinedReallocate Q mm st p new_size alignment
        = (match combinedAllocate Q mm st new_size alignment false with
           | .error e => .error e
           | .ok (new_p, st1) =>
             match combinedDeallocate Q st1 p with
             | .error e => .error e
             | .ok st2 => .ok (new_p, st2)) ∧
      (combinedAllocate Q mm st new_size alignment false = .ok (0, st) →
        primPointerIsMine Q p = true →
        primGetSizeClass Q p < Q.kNumClasses →
        ∃ st2,
          combinedReallocate Q mm st p new_size alignment = .ok (0, st2) ∧
            (p ∈ st2.cache.free_lists (primGetSizeClass Q p) ∨
              p ∈ (st2.primary.regions (primGetSizeClass Q p)).free_list)) := by
  have h1 : combinedReallocate Q mm st p new_size alignment
      = (match combinedAllocate Q mm st new_size alignment false with
         | .error e => .error e
         | .ok (new_p, st1) =>
           match combinedDeallocate Q st1 p with
           | .error e => .error e
           | .ok st2 => .ok (new_p, st2)) := by
    simp only [combinedReallocate]
    rw [if_neg hp, if_neg hn, if_neg (not_not_intro hmine)]
  refine ⟨h1, fun hfail hpm hcid => ?_⟩
  obtain ⟨alloc', cache', hdeq, hmem⟩ :=
    cacheDeallocate_mem Q st.primary st.cache (primGetSizeClass Q p) p hcid
  have hde : combinedDeallocate Q st p
      = .ok { st with primary := alloc', cache := cache' } := by
    simp only [combinedDeallocate]
    rw [if_neg hp, if_pos hpm, hdeq]
  refine ⟨{ st with primary := alloc', cache := cache' }, ?_, ?_⟩
  · rw [h1, hfail]
    simp only [hde]
  · simpa using hmem

/-- C1 counterexample: reallocating a live primary chunk to size
`2^64 - 1` makes the fresh allocation fail (overflow), `Reallocate`
returns null, yet the old pointer has been pushed onto the thread
cache's free list — it is not left allocated and untouched as the claim
states. -/
theorem combinedReallocate_failure_counterexample :
    Except.map (fun pr => (pr.1, pr.2.cache.free_lists 0))
        (combinedReallocate testA64Params (fun _ => 2 ^ 20) cexCombined
          0x600000000000 (2 ^ 64 - 1) 1)
      = .ok (0, [0x600000000000]) := by
  rfl

/-- Witness for C1 at the concrete failing reallocation. -/
theorem combinedReallocate_spec_witness :
    combinedReallocate testA64Params (fun _ => 2 ^ 20) cexCombined
          0x600000000000 (2 ^ 64 - 1) 1
        = (match combinedAllocate testA64Params (fun _ => 2 ^ 20) cexCombined
              (2 ^ 64 - 1) 1 false with
           | .error e => .error e
           | .ok (new_p, st1) =>
             match combinedDeallocate testA64Params st1 0x600000000000 with
             | .error e => .error e
             | .ok st2 => .ok (new_p, st2)) ∧
      (combinedAllocate testA64Params (fun _ => 2 ^ 20) cexCombined
            (2 ^ 64 - 1) 1 false = .ok (0, cexCombined) →
        primPointerIsMine testA64Params 0x600000000000 = true →
        primGetSizeClass testA64Params 0x600000000000 < testA64Params.kNumClasses →
        ∃ st2,
          combinedReallocate testA64Params (fun _ => 2 ^ 20) cexCombined
              0x600000000000 (2 ^ 64 - 1) 1 = .ok (0, st2) ∧
            (0x600000000000 ∈ st2.cache.free_lists
                (primGetSizeClass testA64Params 0x600000000000) ∨
              0x600000000000 ∈ (st2.primary.regions
                (primGetSizeClass testA64Params 0x600000000000)).free_list)) :=
  combinedReallocate_spec testA64Params (fun _ => 2 ^ 20) cexCombined
    0x600000000000 (2 ^ 64 - 1) 1 (by decide) (by decide) rfl


/-! ## `FakeStack` (asan_fake_stack.cc)

The layout accessors `GetFlags`, `GetFrame`, `NumberOfFrames` and
`ModuloNumberOfFrames` come from asan_fake_stack.h, which is not among
this repository's sources.  Modelled from the spec: the fake stack keeps
"a per-class bitmap of allocation flags" and each frame "records the
owning `real_stack` value", so the state carries per-class flag and
`real_stack` arrays indexed by `(class_id, slot)`, with
`ModuloNumberOfFrames` reducing a position modulo the per-class frame
count.  The GC and allocation logic below follows asan_fake_stack.cc. -/

def kNumberOfSizeClasses : Nat := 11

structure FakeStackState where
  numFrames : Nat → Nat
  flags : Nat → Nat → Bool
  realStack : Nat → Nat → Nat
  classIdStored : Nat → Nat → Nat
  hintPosition : Nat → Nat
  allocMask : Nat → Bool
  needsGC : Bool

/-- `FakeStack::HandleNoReturn` (asan_fake_stack.cc:96-98). -/
def fakeStackHandleNoReturn (st : FakeStackState) : FakeStackState :=
  { st with needsGC := true }

/-- `FakeStack::GC` (asan_fake_stack.cc:106-123): for every size class
whose mask bit is set, clear the allocation flag of every claimed slot
whose stored `real_stack` is strictly below the current one; finally
clear the deferred-GC flag. -/
def fakeStackGC (st : FakeStackState) (real_stack : Nat) : FakeStackState :=
  { st with
    flags := fun c i =>
      if c < kNumberOfSizeClasses ∧ st.allocMask c ∧ i < st.numFrames c ∧
          st.flags c i ∧ st.realStack c i < real_stack
        then false else st.flags c i,
    needsGC := false }

/-- The claim loop of `FakeStack::Allocate` (asan_fake_stack.cc:49-65):
starting from the hint cursor, scan `NumberOfFrames` positions modulo the
frame count for a clear flag and claim the first one, recording
`real_stack` and the class id, advancing the hint past it and setting the
class's mask bit; when no slot is free the `CHECK(0 && ...)` fires. -/
def fakeStackClaim (st : FakeStackState) (class_id real_stack : Nat) :
    Except Fatal (FakeStackState × Nat) :=
  let n := st.numFrames class_id
  match (List.range n).find?
      (fun j => ! st.flags class_id ((st.hintPosition class_id + j) % n)) with
  | some j =>
    let pos := (st.hintPosition class_id + j) % n
    .ok ({ st with
      flags := fun c i =>
        if c = class_id ∧ i = pos then true else st.flags c i,
      realStack := fun c i =>
        if c = class_id ∧ i = pos then real_stack else st.realStack c i,
      classIdStored := fun c i =>
        if c = class_id ∧ i = pos then class_id else st.classIdStored c i,
      hintPosition := fun c =>
        if c = class_id then st.hintPosition class_id + j + 1
        else st.hintPosition c,
      allocMask := fun c => if c = class_id then true else st.allocMask c },
      pos)
  | none => .error .checkFailed

/-- `FakeStack::Allocate` (asan_fake_stack.cc:43-68): check the class id,
run the deferred GC if flagged, then claim a slot. -/
def fakeStackAllocate (st : FakeStackState) (class_id real_stack : Nat) :
    Except Fatal (FakeStackState × Nat) :=
  if ¬ class_id < kNumberOfSizeClasses then .error .checkFailed
  else
    let st1 := if st.needsGC then fakeStackGC st real_stack else st
    fakeStackClaim st1 class_id real_stack

/-- C6: after `HandleNoReturn` set the deferred-GC flag, the next
`Allocate` first runs `GC(current_real_stack)` — which, on every class
with claimed slots, clears the allocation flag of exactly those claimed
slots whose stored `real_stack` lies strictly below the current one and
of no slot whose stored value is greater or equal — then clears the
deferred-GC flag, and only then claims a slot.  The mask invariant
(a set flag implies the class's mask bit) makes the per-class mask skip
of the GC loop invisible. -/
theorem fakeStack_gc_on_allocate (st : FakeStackState)
    (class_id real_stack : Nat)
    (hgc : (fakeStackHandleNoReturn st).needsGC = true)
    (hinv : ∀ c i, (fakeStackHandleNoReturn st).flags c i = true →
      (fakeStackHandleNoReturn st).allocMask c = true) :
    fakeStackAllocate (fakeStackHandleNoReturn st) class_id real_stack
        = (if ¬ class_id < kNumberOfSizeClasses then .error .checkFailed
           else fakeStackClaim
             (fakeStackGC (fakeStackHandleNoReturn st) real_stack)
             class_id real_stack) ∧
      (fakeStackGC (fakeStackHandleNoReturn st) real_stack).needsGC = false ∧
      (∀ c i, c < kNumberOfSizeClasses → i < st.numFrames c →
        (fakeStackGC (fakeStackHandleNoReturn st) real_stack).flags c i
          = ((fakeStackHandleNoReturn st).flags c i &&
              ! decide (st.realStack c i < real_stack))) := by
  refine ⟨?_, rfl, ?_⟩
  · simp only [fakeStackAllocate, hgc]
    rfl
  · intro c i hc hi
    by_cases hf : (fakeStackHandleNoReturn st).flags c i = true
    · have hmask := hinv c i hf
      simp only [fakeStackGC, fakeStackHandleNoReturn] at hf hmask ⊢
      by_cases hrs : st.realStack c i < real_stack
      · rw [if_pos ⟨hc, by simp [hmask], hi, by simp [hf], hrs⟩]
        simp [hf, hrs]
      · rw [if_neg (by
          rintro ⟨-, -, -, -, hcon⟩
          exact hrs hcon)]
        simp [hf, hrs]
    · have hf' : (fakeStackHandleNoReturn st).flags c i = false := by
        revert hf
        cases (fakeStackHandleNoReturn st).flags c i <;> simp
      simp only [fakeStackGC, fakeStackHandleNoReturn] at hf' ⊢
      rw [if_neg (by
        rintro ⟨-, -, -, hcon, -⟩
        rw [hf'] at hcon
        exact Bool.noConfusion hcon)]
      simp [hf']

/-- Concrete fake-stack state for the C6 witness: class 0 has two claimed
slots, one owned by a frame below the current real stack pointer (stale)
and one above it. -/
def cexFakeStack : FakeStackState :=
  { numFrames := fun _ => 2,
    flags := fun c i => c = 0 ∧ i < 2,
    realStack := fun c i => if c = 0 ∧ i = 0 then 5 else 20,
    classIdStored := fun _ _ => 0,
    hintPosition := fun _ => 0,
    allocMask := fun c => c = 0,
    needsGC := false }

/-- Witness for C6: allocating on the concrete state after
`HandleNoReturn`, with current real stack 10: the slot owned by 5 is
reclaimed, the slot owned by 20 is kept, and the deferred-GC flag is
cleared. -/
theorem fakeStack_gc_on_allocate_witness :
    (fakeStackHandleNoReturn cexFakeStack).needsGC = true ∧
      (fakeStackAllocate (fakeStackHandleNoReturn cexFakeStack) 0 10
          = (if ¬ (0 : Nat) < kNumberOfSizeClasses then .error .checkFailed
             else fakeStackClaim
               (fakeStackGC (fakeStackHandleNoReturn cexFakeStack) 10) 0 10) ∧
        (fakeStackGC (fakeStackHandleNoReturn cexFakeStack) 10).needsGC = false ∧
        (∀ c i, c < kNumberOfSizeClasses → i < cexFakeStack.numFrames c →
          (fakeStackGC (fakeStackHandleNoReturn cexFakeStack) 10).flags c i
            = ((fakeStackHandleNoReturn cexFakeStack).flags c i &&
                ! decide (cexFakeStack.realStack c i < 10)))) :=
  ⟨rfl,
    fakeStack_gc_on_allocate cexFakeStack 0 10 rfl
      (by
        intro c i hf
        simp only [fakeStackHandleNoReturn, cexFakeStack] at hf ⊢
        simp only [decide_eq_true_eq] at hf
        simp [hf.1])⟩

end CompilerRT
